import Mathlib

/-!
Verification development for the cellhub pipeline repository.

The repository consists of ruffus/cgat-core pipeline files whose tasks shell
out to external tools and record completion in sentinel files, plus a
standalone script cluster_umap.py.  This file shallowly embeds:

* the success-path action sequence ("trace") of every pipeline task body:
  job submissions (P.run), sentinel touches (IOTools.touch_file), direct
  file writes, directory creation, symlinks, dataset registrations on the
  local API, database statements, raises, and in-process library calls;
* the task-dependency edges declared by the ruffus decorators;
* the table-construction logic of cluster_umap.py;
* the per-library [libraries] table filtering of pipeline_cellranger_multi;
* the filesystem effect of the useCounts tasks.

Conditional behaviour of a task body (os.path.exists checks, run flags) is
made explicit as Boolean or list parameters of its trace function; a raised
exception aborts the rest of a body, which the `tseq` combinator models.
-/

namespace Cellhub

/-- Kinds of files written directly by the pipeline python code
(external tools write their own outputs, which are not modelled). -/
inductive FileKind where
  | sentinel | tsv | tsvgz | mtx | csv | csvgz | tex | sty | yml | pdf | svg | png
  deriving DecidableEq, Repr

/-- One primitive effect of a pipeline task body, in program order. -/
inductive Action where
  /-- P.run: format shell command strings and submit them to the external
  cluster or job-queue system, blocking until completion. -/
  | run (cmds : List String)
  /-- IOTools.touch_file: create an empty sentinel marker file. -/
  | touch (file : String)
  /-- a direct file write performed in-process (to_latex, to_csv,
  yaml.dump, open/write, pipeline_printout_graph). -/
  | write (file : String) (kind : FileKind)
  /-- os.mkdir / os.makedirs. -/
  | mkdirA (dir : String)
  /-- os.symlink src dst. -/
  | symlinkA (src : String) (dst : String)
  /-- cgatcore database.executewait: execute an SQL statement, retrying a
  failed execution up to `retries` times. -/
  | dbExecWait (stmt : String) (retries : Nat)
  /-- tasks-module DB.load: load a table into the SQLite database. -/
  | dbLoad (table : String) (path : String)
  /-- local API registration (T.api / api.api define_dataset + register_dataset). -/
  | registerDataset (name : String)
  /-- shutil.move. -/
  | moveFile (src : String) (dst : String) (kind : FileKind)
  /-- raise <kind>(<msg>), aborting the task body. -/
  | raiseError (kind : String) (msg : String)
  /-- an in-process call into an external python library or the
  repository tasks module. -/
  | libCall (lib : String) (fn : String)
  /-- creation of a thread or process by the task body itself (never
  used by any embedded task: the pipelines create none). -/
  | spawn (what : String)
  deriving DecidableEq, Repr

def isRun : Action → Bool
  | .run _ => true
  | _ => false

def isRaise : Action → Bool
  | .raiseError _ _ => true
  | _ => false

def isTouch : Action → Bool
  | .touch _ => true
  | _ => false

def isSpawn : Action → Bool
  | .spawn _ => true
  | _ => false

/-- An action that re-attempts a failed sub-action (only
database.executewait with retries above one qualifies). -/
def isRetried : Action → Bool
  | .dbExecWait _ r => r > 1
  | _ => false

/-- The number of retries an action allows for a failed execution. -/
def retriesOf : Action → Nat
  | .dbExecWait _ r => r
  | _ => 0

/-- Raised errors must be ValueError (non-raises pass vacuously). -/
def raiseIsValueError : Action → Bool
  | .raiseError k _ => k == "ValueError"
  | _ => true

/-- Local bookkeeping: everything a task body does in-process apart from
submitting external commands; excludes thread or process creation. -/
def isLocalBookkeeping : Action → Bool
  | .run _ => false
  | .spawn _ => false
  | _ => true

/-- An in-process call that performs scientific computation (normalization,
clustering, dimensionality reduction or statistical testing).  In this
repository the only such call is scanpy tl.umap in cluster_umap.py; the
tasks-module calls (contig annotation reformatting, table preprocessing)
are data plumbing, not scientific computation. -/
def isSciCall : Action → Bool
  | .libCall l _ => l == "scanpy"
  | _ => false

/-- File kinds the specification allows: sentinel marker files and
market-matrix or TSV outputs. -/
def claimFileKindOk : FileKind → Bool
  | .sentinel | .tsv | .tsvgz | .mtx => true
  | _ => false

/-- File kinds the pipeline python layer actually writes directly: the
spec kinds minus market-matrix (only external tools write mtx files) plus
csv and csv.gz tables, tex, sty and yml inputs and pdf, svg and png
reports. -/
def producedKindOk : FileKind → Bool
  | .mtx => false
  | _ => true

/-- Does this action write or move a file of an acceptable kind? -/
def writeKindOk (allowed : FileKind → Bool) : Action → Bool
  | .write _ k => allowed k
  | .moveFile _ _ k => allowed k
  | _ => true

def hasRaiseB (t : List Action) : Bool := t.any isRaise

def hasRunB (t : List Action) : Bool := t.any isRun

/-- True when some external command submission is followed (later in
program order) by a raise: the situation the error-handling claims
forbid. -/
def runBeforeRaise : List Action → Bool
  | [] => false
  | a :: r => (isRun a && hasRaiseB r) || runBeforeRaise r

/-- Sequential composition of two body fragments with exception
propagation: a raise in the first fragment aborts the rest of the body. -/
def tseq (p q : List Action) : List Action := if hasRaiseB p then p else p ++ q

/-- A for-loop over runtime data, with exception propagation out of the
loop body. -/
def forEachT (f : α → List Action) : List α → List Action
  | [] => []
  | x :: xs => tseq (f x) (forEachT f xs)

/-- `if not ok: raise ValueError(msg)`. -/
def guardValueError (ok : Bool) (msg : String) : List Action :=
  if ok then [] else [.raiseError ("ValueError") msg]

/-- Every raise is a ValueError and no raise is preceded by an external
command submission. -/
def raisesOk (t : List Action) : Bool :=
  !(runBeforeRaise t) && t.all raiseIsValueError

/-- No action of the body re-attempts a failed execution. -/
def noRetry (t : List Action) : Bool := t.all (fun a => !isRetried a)

/-- Every file this body writes has one of the produced kinds. -/
def outputsOk (t : List Action) : Bool := t.all (writeKindOk producedKindOk)

/-- Every action is an external command submission or local bookkeeping
(in particular the body spawns no thread or process of its own). -/
def plumbingOnly (t : List Action) : Bool :=
  t.all (fun a => isRun a || isLocalBookkeeping a)

/-- No in-process scientific computation happens in this body. -/
def noSciCall (t : List Action) : Bool := t.all (fun a => !isSciCall a)

/-- The per-action part of the task-body invariants: every raise is a
ValueError, nothing is re-attempted, every written file has a produced
kind, everything is a command submission or local bookkeeping, and no
in-process scientific computation happens. -/
def goodAction (a : Action) : Bool :=
  raiseIsValueError a && !isRetried a && writeKindOk producedKindOk a
    && (isRun a || isLocalBookkeeping a) && !isSciCall a

/-- All invariants shared by the pipeline task bodies
(pipeline_celldb.py final is the one exception, for `noRetry`). -/
def taskOk (t : List Action) : Bool :=
  t.all goodAction && !(runBeforeRaise t)

/-- A family of task bodies (the tasks of one pipeline), each a function
from that pipeline's runtime environment to its action trace, all
satisfying a Boolean invariant. -/
def FamilyOk {E : Type} (P : List Action → Bool) (fams : List (E → List Action)) : Prop :=
  ∀ f ∈ fams, ∀ e, P (f e) = true

/-- Reachability through the declared task-dependency edges. -/
inductive Reach (es : List (String × String)) : String → String → Prop where
  | single : ∀ {a b}, (a, b) ∈ es → Reach es a b
  | tail : ∀ {a b c}, Reach es a b → (b, c) ∈ es → Reach es a c

/-- A dependency edge list is acyclic when no task is reachable from
itself. -/
def AcyclicEdges (es : List (String × String)) : Prop := ∀ n, ¬ Reach es n n

/-! ## pipeline_cellranger_multi.py -/

namespace CrMulti

/-- taskSummary: tabulates the run flags into a latex table. -/
def taskSummary_trace : List Action := [.write ("task.summary.table.tex") .tex]

/-- The reference checks at the top of the config task: when the
corresponding run flag is set, raise ValueError if the reference
parameter is unset, then raise ValueError if the referenced file does
not exist. -/
def refGuard (runFlag isSet isPresent : Bool) (which : String) : List Action :=
  if runFlag then
    tseq (guardValueError isSet (which ++ " parameter not set in file pipeline.yml"))
         (guardValueError isPresent ("The specified " ++ which ++ " file does not exist"))
  else []

/-- config: check the three references, build the parameter tables in
memory, write one per-library csv config file per library, then touch the
sentinel. -/
def config_trace (runGex gexSet gexPresent runFeature featSet featPresent
    runVdj vdjSet vdjPresent : Bool) (libraryIds : List String) : List Action :=
  tseq (refGuard runGex gexSet gexPresent ("gene-expression_reference"))
  (tseq (refGuard runFeature featSet featPresent ("feature_reference"))
  (tseq (refGuard runVdj vdjSet vdjPresent ("vdj_reference"))
  (forEachT (fun lib => [.write ("cellranger.multi.dir/" ++ lib ++ ".csv") .csv]) libraryIds
    ++ [.touch ("cellranger.multi.dir/config.sentinel")])))

/-- cellrangerMulti: submit one cellranger multi job, then touch the
sentinel. -/
def cellrangerMulti_trace (libraryId : String) : List Action :=
  [.run ["cellranger multi " ++ libraryId],
   .touch ("cellranger.multi.dir/" ++ libraryId ++ "-cellranger.multi.sentinel")]

/-- One to_register entry of mtxAPI: register the matrix when its
directory exists, silently skip it otherwise. -/
def mtxRegisterIfPresent (present : Bool) (id : String) : List Action :=
  if present then [.registerDataset ("counts mtx " ++ id)] else []

/-- mtxAPI: register the unfiltered and the per-sample filtered count
matrices that exist, then touch the sentinel. -/
def mtxAPI_trace (libraryId : String) (unfilteredPresent : Bool)
    (perSample : List (String × Bool)) : List Action :=
  mtxRegisterIfPresent unfilteredPresent libraryId
    ++ forEachT (fun d => mtxRegisterIfPresent d.2 d.1) perSample
    ++ [.touch ("cellranger.multi.dir/register.mtx.sentinel")]

/-- h5API: make the output directory if needed, register the unfiltered
h5 file and one filtered h5 file per per-sample directory, then touch the
sentinel. -/
def h5API_trace (libraryId : String) (outDirMissing : Bool)
    (perSampleDirs : List String) : List Action :=
  (if outDirMissing then [.mkdirA ("cellranger.multi.dir")] else [])
    ++ [.registerDataset ("counts h5 unfiltered " ++ libraryId)]
    ++ forEachT (fun d => [.registerDataset ("counts h5 filtered " ++ d)]) perSampleDirs
    ++ [.touch ("cellranger.multi.dir/register.h5.sentinel")]

/-- cellhub.tasks.cellranger.contig_annotations: reformat the cell
barcodes of a contig annotation table in-process and write the
reformatted table. -/
def contigAnnotations (outLoc : String) : List Action :=
  [.libCall ("cellhub.tasks.cellranger") ("contig_annotations"),
   .write outLoc .csvgz]

/-- One vdj_type iteration of postProcessVDJ: when that vdj output
exists, reformat the unfiltered annotations and the per-sample filtered
annotations. -/
def vdjTypeBlock (libraryId vdjType : String) (present : Bool)
    (perSampleDirs : List String) : List Action :=
  if present then
    contigAnnotations ("cellranger.multi.dir/out.dir/" ++ libraryId
        ++ "/unfiltered/" ++ vdjType ++ "/all_contig_annotations.csv.gz")
      ++ forEachT (fun d =>
          contigAnnotations ("cellranger.multi.dir/out.dir/" ++ libraryId
            ++ "/filtered/" ++ d ++ "/" ++ vdjType
            ++ "/filtered_contig_annotations.csv.gz")) perSampleDirs
  else []

/-- postProcessVDJ: make the output directory if needed, post-process
vdj_b and vdj_t outputs that exist, then touch the sentinel. -/
def postProcessVDJ_trace (libraryId : String) (outDirMissing vdjB vdjT : Bool)
    (perSampleDirs : List String) : List Action :=
  (if outDirMissing then [.mkdirA ("cellranger.multi.dir/out.dir/" ++ libraryId)] else [])
    ++ vdjTypeBlock libraryId ("vdj_b") vdjB perSampleDirs
    ++ vdjTypeBlock libraryId ("vdj_t") vdjT perSampleDirs
    ++ [.touch ("cellranger.multi.dir/out.dir/" ++ libraryId ++ "/post.process.vdj.sentinel")]

/-- One subset and vdj_type combination of vdjAPI: register the contig
file when its folder exists. -/
def vdjRegisterIfPresent (present : Bool) (subset vdjType : String) : List Action :=
  if present then [.registerDataset (vdjType ++ " " ++ subset)] else []

/-- vdjAPI: register the existing contig annotation files.  Note that
the task body never touches its declared output
register.vdj.sentinel. -/
def vdjAPI_trace (unfB unfT filB filT : Bool) : List Action :=
  vdjRegisterIfPresent unfB ("unfiltered") ("vdj_b")
    ++ vdjRegisterIfPresent unfT ("unfiltered") ("vdj_t")
    ++ vdjRegisterIfPresent filB ("filtered") ("vdj_b")
    ++ vdjRegisterIfPresent filT ("filtered") ("vdj_t")

/-- full: an empty aggregation target. -/
def full_trace : List Action := []

/-- useCounts: raise ValueError when api/counts is already registered,
otherwise symlink the cellranger.multi counts into the api.  The body
never touches its declared output use.cellranger.sentinel. -/
def useCounts_trace (apiCountsPresent : Bool) : List Action :=
  if apiCountsPresent then
    [.raiseError ("ValueError") ("Counts have already been registered to the API")]
  else [.symlinkA ("cellranger.multi/counts") ("api/counts")]

/-- The runtime environment of a pipeline_cellranger_multi run: the yml
run flags and reference checks, the configured libraries, and the
filesystem facts the task bodies query. -/
structure Env where
  runGex : Bool
  gexSet : Bool
  gexPresent : Bool
  runFeature : Bool
  featSet : Bool
  featPresent : Bool
  runVdj : Bool
  vdjSet : Bool
  vdjPresent : Bool
  libraryIds : List String
  libraryId : String
  unfilteredPresent : Bool
  perSample : List (String × Bool)
  outDirMissing : Bool
  vdjB : Bool
  vdjT : Bool
  vdjUnfB : Bool
  vdjUnfT : Bool
  vdjFilB : Bool
  vdjFilT : Bool
  apiCountsPresent : Bool

/-- All tasks of pipeline_cellranger_multi as trace families over the
runtime environment. -/
def tasks : List (Env → List Action) :=
  [fun _ => taskSummary_trace,
   fun e => config_trace e.runGex e.gexSet e.gexPresent e.runFeature e.featSet
              e.featPresent e.runVdj e.vdjSet e.vdjPresent e.libraryIds,
   fun e => cellrangerMulti_trace e.libraryId,
   fun e => mtxAPI_trace e.libraryId e.unfilteredPresent e.perSample,
   fun e => h5API_trace e.libraryId e.outDirMissing (e.perSample.map Prod.fst),
   fun e => postProcessVDJ_trace e.libraryId e.outDirMissing e.vdjB e.vdjT
              (e.perSample.map Prod.fst),
   fun e => vdjAPI_trace e.vdjUnfB e.vdjUnfT e.vdjFilB e.vdjFilT,
   fun _ => full_trace,
   fun e => useCounts_trace e.apiCountsPresent]

/-- The task-dependency edges declared by the ruffus decorators of
pipeline_cellranger_multi.py. -/
def edges : List (String × String) :=
  [("config", "cellrangerMulti"),
   ("cellrangerMulti", "mtxAPI"),
   ("cellrangerMulti", "h5API"),
   ("cellrangerMulti", "postProcessVDJ"),
   ("postProcessVDJ", "vdjAPI"),
   ("cellrangerMulti", "full"), ("mtxAPI", "full"),
   ("h5API", "full"), ("vdjAPI", "full"),
   ("mtxAPI", "useCounts"), ("h5API", "useCounts")]

/-- A topological rank witnessing the acyclicity of the edges. -/
def rank : String → Nat
  | "config" => 0
  | "cellrangerMulti" => 1
  | "mtxAPI" => 2
  | "h5API" => 2
  | "postProcessVDJ" => 2
  | "vdjAPI" => 3
  | _ => 4

end CrMulti

/-! ## pipeline_cellranger.py -/

namespace Cr

/-- count: submit one cellranger count job, then touch the sentinel. -/
def count_trace (libraryId : String) : List Action :=
  [.run ["cellranger count " ++ libraryId],
   .touch ("cellranger.count.dir/" ++ libraryId ++ ".sentinel")]

/-- One to_register entry of mtxAPI: register the matrix when its
directory exists, raise ValueError otherwise. -/
def mtxBranch (present : Bool) (id : String) : List Action :=
  if present then [.registerDataset ("counts mtx " ++ id)]
  else [.raiseError ("ValueError") ("matrix path does not exist")]

/-- mtxAPI: register the unfiltered then the filtered count matrix,
raising ValueError at the first missing one, then touch the sentinel. -/
def mtxAPI_trace (libraryId : String) (unfPresent filPresent : Bool) : List Action :=
  tseq (mtxBranch unfPresent (libraryId ++ " unfiltered"))
  (tseq (mtxBranch filPresent (libraryId ++ " filtered"))
        [.touch ("cellranger.count.dir/" ++ libraryId ++ ".mtx.register.sentinel")])

/-- h5API: make the output directory if needed, register both h5 files,
then touch the sentinel. -/
def h5API_trace (libraryId : String) (outDirMissing : Bool) : List Action :=
  (if outDirMissing then [.mkdirA ("cellranger.count.dir")] else [])
    ++ [.registerDataset ("counts h5 unfiltered " ++ libraryId),
        .registerDataset ("counts h5 filtered " ++ libraryId),
        .touch ("cellranger.count.dir/" ++ libraryId ++ ".h5.register.sentinel")]

/-- tcr: submit one cellranger vdj job for the TR chain, then touch the
sentinel. -/
def tcr_trace (libraryId : String) : List Action :=
  [.run ["cellranger vdj TR " ++ libraryId],
   .touch ("cellranger.vdj.t.dir/" ++ libraryId ++ ".sentinel")]

/-- registerTCR: register the unfiltered and filtered contig files, then
touch the sentinel. -/
def registerTCR_trace (libraryId : String) : List Action :=
  [.registerDataset ("vdj_t unfiltered " ++ libraryId),
   .registerDataset ("vdj_t filtered " ++ libraryId),
   .touch ("cellranger.vdj.t.dir/" ++ libraryId ++ ".tcr.register.sentinel")]

/-- mergeTCR: submit the two table-concatenation commands in one P.run
call, then touch the sentinel. -/
def mergeTCR_trace : List Action :=
  [.run ["python cgatcore.tables filtered_contig_annotations",
         "python cgatcore.tables all_contig_annotations"],
   .touch ("cellranger.vdj.t.dir/out.dir/merged.tcr.sentinel")]

/-- registerMergedTCR: register both merged contig tables, then touch
the sentinel. -/
def registerMergedTCR_trace : List Action :=
  [.registerDataset ("vdj_t_merged unfiltered"),
   .registerDataset ("vdj_t_merged filtered"),
   .touch ("cellranger.vdj.t.dir/out.dir/merged.tcr.register.sentinel")]

/-- bcr: submit one cellranger vdj job for the IG chain, then touch the
sentinel. -/
def bcr_trace (libraryId : String) : List Action :=
  [.run ["cellranger vdj IG " ++ libraryId],
   .touch ("cellranger.vdj.b.dir/" ++ libraryId ++ ".sentinel")]

/-- registerBCR: register the unfiltered and filtered contig files, then
touch the sentinel. -/
def registerBCR_trace (libraryId : String) : List Action :=
  [.registerDataset ("vdj_b unfiltered " ++ libraryId),
   .registerDataset ("vdj_b filtered " ++ libraryId),
   .touch ("cellranger.vdj.b.dir/" ++ libraryId ++ ".bcr.register.sentinel")]

/-- mergeBCR: submit the two table-concatenation commands in one P.run
call, then touch the sentinel. -/
def mergeBCR_trace : List Action :=
  [.run ["python cgatcore.tables filtered_contig_annotations",
         "python cgatcore.tables all_contig_annotations"],
   .touch ("cellranger.vdj.b.dir/out.dir/merged.bcr.sentinel")]

/-- registerMergedBCR: register both merged contig tables, then touch
the sentinel. -/
def registerMergedBCR_trace : List Action :=
  [.registerDataset ("vdj_b_merged unfiltered"),
   .registerDataset ("vdj_b_merged filtered"),
   .touch ("cellranger.vdj.b.dir/out.dir/merged.bcr.register.sentinel")]

/-- full: an empty aggregation target. -/
def full_trace : List Action := []

/-- useCounts: raise ValueError when api/counts is already registered,
otherwise symlink the cellranger counts into the api.  The body never
touches its declared output use.cellranger.sentinel. -/
def useCounts_trace (apiCountsPresent : Bool) : List Action :=
  if apiCountsPresent then
    [.raiseError ("ValueError") ("Counts have already been registered to the API")]
  else [.symlinkA ("cellranger/counts") ("api/counts")]

/-- The runtime environment of a pipeline_cellranger run. -/
structure Env where
  libraryId : String
  unfPresent : Bool
  filPresent : Bool
  outDirMissing : Bool
  apiCountsPresent : Bool

/-- All tasks of pipeline_cellranger as trace families. -/
def tasks : List (Env → List Action) :=
  [fun e => count_trace e.libraryId,
   fun e => mtxAPI_trace e.libraryId e.unfPresent e.filPresent,
   fun e => h5API_trace e.libraryId e.outDirMissing,
   fun e => tcr_trace e.libraryId,
   fun e => registerTCR_trace e.libraryId,
   fun _ => mergeTCR_trace,
   fun _ => registerMergedTCR_trace,
   fun e => bcr_trace e.libraryId,
   fun e => registerBCR_trace e.libraryId,
   fun _ => mergeBCR_trace,
   fun _ => registerMergedBCR_trace,
   fun _ => full_trace,
   fun e => useCounts_trace e.apiCountsPresent]

/-- The task-dependency edges declared by the ruffus decorators of
pipeline_cellranger.py. -/
def edges : List (String × String) :=
  [("count", "mtxAPI"), ("count", "h5API"),
   ("tcr", "registerTCR"), ("tcr", "mergeTCR"),
   ("mergeTCR", "registerMergedTCR"),
   ("bcr", "registerBCR"), ("bcr", "mergeBCR"),
   ("mergeBCR", "registerMergedBCR"),
   ("count", "full"), ("mtxAPI", "full"), ("h5API", "full"),
   ("registerTCR", "full"), ("registerBCR", "full"),
   ("registerMergedBCR", "full"), ("registerMergedTCR", "full"),
   ("mtxAPI", "useCounts"), ("h5API", "useCounts")]

/-- A topological rank witnessing the acyclicity of the edges. -/
def rank : String → Nat
  | "count" => 0
  | "tcr" => 0
  | "bcr" => 0
  | "mtxAPI" => 1
  | "h5API" => 1
  | "registerTCR" => 1
  | "registerBCR" => 1
  | "mergeTCR" => 1
  | "mergeBCR" => 1
  | "registerMergedTCR" => 2
  | "registerMergedBCR" => 2
  | _ => 3

end Cr

/-! ## pipeline_adt_norm.py -/

namespace Adt

/-- The two-level conditional mkdir at the top of several adt tasks: the
directories are created only when both the output directory and its
parent are missing. -/
def mkdirLadder2 (outMissing parentMissing : Bool) (parent outdir : String) : List Action :=
  if outMissing then
    if parentMissing then [.mkdirA parent, .mkdirA outdir] else []
  else []

/-- The three-level conditional mkdir of adtdepth, median_norm and
clr_norm. -/
def mkdirLadder3 (outMissing parentMissing upMissing : Bool)
    (up parent outdir : String) : List Action :=
  if outMissing then
    if parentMissing then
      if upMissing then [.mkdirA up, .mkdirA parent, .mkdirA outdir] else []
    else []
  else []

/-- gexdepth: conditional mkdirs, run the depth-distribution R script on
the GEX matrices, then touch the sentinel. -/
def gexdepth_trace (libraryId : String) (outMissing parentMissing : Bool) : List Action :=
  mkdirLadder2 outMissing parentMissing ("adt_norm.dir/adt_dsb.dir")
      ("adt_norm.dir/adt_dsb.dir/" ++ libraryId)
    ++ [.run ["Rscript adt_calculate_depth_dist.R gex " ++ libraryId],
        .touch ("adt_norm.dir/adt_dsb.dir/" ++ libraryId ++ "/" ++ libraryId ++ "_gex.sentinel")]

/-- gexdepthAPI: register the per-library depth tables, then touch the
sentinel. -/
def gexdepthAPI_trace : List Action :=
  [.registerDataset ("depth_metrics gex"),
   .touch ("adt_norm.dir/adt_dsb.dir/api_gex.sentinel")]

/-- adtdepth: conditional mkdirs, run the depth-distribution R script on
the ADT matrices, then touch the sentinel. -/
def adtdepth_trace (libraryId : String) (outMissing parentMissing upMissing : Bool) : List Action :=
  mkdirLadder3 outMissing parentMissing upMissing ("adt_norm.dir")
      ("adt_norm.dir/adt_dsb.dir") ("adt_norm.dir/adt_dsb.dir/" ++ libraryId)
    ++ [.run ["Rscript adt_calculate_depth_dist.R adt " ++ libraryId],
        .touch ("adt_norm.dir/adt_dsb.dir/" ++ libraryId ++ "/" ++ libraryId ++ "_adt.sentinel")]

/-- adtdepthAPI: register the per-library depth tables, then touch the
sentinel. -/
def adtdepthAPI_trace : List Action :=
  [.registerDataset ("depth_metrics adt"),
   .touch ("adt_norm.dir/adt_dsb.dir/api_adt.sentinel")]

/-- adt_plot_norm: conditional mkdirs, run the plotting R script (which
writes the pdf report), then touch the sentinel. -/
def adt_plot_norm_trace (libraryId : String) (outMissing parentMissing : Bool) : List Action :=
  mkdirLadder2 outMissing parentMissing ("adt_norm.dir/adt_dsb.dir")
      ("adt_norm.dir/adt_dsb.dir/" ++ libraryId)
    ++ [.run ["Rscript adt_plot_norm.R " ++ libraryId],
        .touch ("adt_norm.dir/adt_dsb.dir/" ++ libraryId ++ "/" ++ libraryId ++ "_plot.sentinel")]

/-- dsb_norm: conditional mkdirs, run the DSB normalization R script,
then touch the sentinel. -/
def dsb_norm_trace (libraryId : String) (outMissing parentMissing : Bool) : List Action :=
  mkdirLadder2 outMissing parentMissing ("adt_norm.dir/adt_dsb.dir/" ++ libraryId)
      ("adt_norm.dir/adt_dsb.dir/" ++ libraryId ++ "/mtx")
    ++ [.run ["Rscript adt_normalize.R " ++ libraryId],
        .touch ("adt_norm.dir/adt_dsb.dir/" ++ libraryId ++ "/mtx/" ++ libraryId ++ ".sentinel")]

/-- dsbAPI: register the normalized matrices, then touch the sentinel. -/
def dsbAPI_trace (libraryId : String) : List Action :=
  [.registerDataset ("dsb_norm mtx " ++ libraryId),
   .touch ("adt_norm.dir/adt_dsb.dir/" ++ libraryId ++ "/mtx/" ++ libraryId ++ "_api_load.sentinel")]

/-- median_norm: conditional mkdirs, run the median normalization R
script, then touch the sentinel. -/
def median_norm_trace (libraryId : String) (outMissing parentMissing upMissing : Bool) : List Action :=
  mkdirLadder3 outMissing parentMissing upMissing ("adt_norm.dir/adt_median.dir")
      ("adt_norm.dir/adt_median.dir/" ++ libraryId)
      ("adt_norm.dir/adt_median.dir/" ++ libraryId ++ "/mtx")
    ++ [.run ["Rscript adt_get_median_normalization.R " ++ libraryId],
        .touch ("adt_norm.dir/adt_median.dir/" ++ libraryId ++ "/mtx/" ++ libraryId ++ ".sentinel")]

/-- medianAPI: register the normalized matrices, then touch the
sentinel. -/
def medianAPI_trace (libraryId : String) : List Action :=
  [.registerDataset ("median_norm mtx " ++ libraryId),
   .touch ("adt_norm.dir/adt_median.dir/" ++ libraryId ++ "/mtx/" ++ libraryId ++ "_api_load.sentinel")]

/-- clr_norm: conditional mkdirs, run the CLR normalization R script,
then touch the sentinel. -/
def clr_norm_trace (libraryId : String) (outMissing parentMissing upMissing : Bool) : List Action :=
  mkdirLadder3 outMissing parentMissing upMissing ("adt_norm.dir/adt_clr.dir")
      ("adt_norm.dir/adt_clr.dir/" ++ libraryId)
      ("adt_norm.dir/adt_clr.dir/" ++ libraryId ++ "/mtx")
    ++ [.run ["Rscript adt_get_clr_normalization.R " ++ libraryId],
        .touch ("adt_norm.dir/adt_clr.dir/" ++ libraryId ++ "/mtx/" ++ libraryId ++ ".sentinel")]

/-- clrAPI: register the normalized matrices, then touch the sentinel. -/
def clrAPI_trace (libraryId : String) : List Action :=
  [.registerDataset ("clr_norm mtx " ++ libraryId),
   .touch ("adt_norm.dir/adt_clr.dir/" ++ libraryId ++ "/mtx/" ++ libraryId ++ "_api_load.sentinel")]

/-- plot: draw the pipeline flowchart as svg and png, then touch the
sentinel. -/
def plot_trace : List Action :=
  [.write ("adt_norm.dir/pipeline_flowchart.svg") .svg,
   .write ("adt_norm.dir/pipeline_flowchart.png") .png,
   .touch ("adt_norm.dir/plot.sentinel")]

/-- full: an empty aggregation target. -/
def full_trace : List Action := []

/-- The runtime environment of a pipeline_adt_norm run. -/
structure Env where
  libraryId : String
  outMissing : Bool
  parentMissing : Bool
  upMissing : Bool

/-- All tasks of pipeline_adt_norm as trace families. -/
def tasks : List (Env → List Action) :=
  [fun e => gexdepth_trace e.libraryId e.outMissing e.parentMissing,
   fun _ => gexdepthAPI_trace,
   fun e => adtdepth_trace e.libraryId e.outMissing e.parentMissing e.upMissing,
   fun _ => adtdepthAPI_trace,
   fun e => adt_plot_norm_trace e.libraryId e.outMissing e.parentMissing,
   fun e => dsb_norm_trace e.libraryId e.outMissing e.parentMissing,
   fun e => dsbAPI_trace e.libraryId,
   fun e => median_norm_trace e.libraryId e.outMissing e.parentMissing e.upMissing,
   fun e => medianAPI_trace e.libraryId,
   fun e => clr_norm_trace e.libraryId e.outMissing e.parentMissing e.upMissing,
   fun e => clrAPI_trace e.libraryId,
   fun _ => plot_trace,
   fun _ => full_trace]

/-- The task-dependency edges declared by the ruffus decorators of
pipeline_adt_norm.py. -/
def edges : List (String × String) :=
  [("gexdepth", "gexdepthAPI"),
   ("adtdepth", "adtdepthAPI"),
   ("gexdepthAPI", "adt_plot_norm"), ("adtdepth", "adt_plot_norm"),
   ("gexdepthAPI", "dsb_norm"), ("gexdepth", "dsb_norm"),
   ("dsb_norm", "dsbAPI"),
   ("median_norm", "medianAPI"),
   ("clr_norm", "clrAPI"),
   ("gexdepthAPI", "full"), ("adtdepthAPI", "full"), ("adt_plot_norm", "full"),
   ("dsb_norm", "full"), ("dsbAPI", "full"), ("median_norm", "full"),
   ("medianAPI", "full"), ("clr_norm", "full"), ("clrAPI", "full"),
   ("plot", "full")]

/-- A topological rank witnessing the acyclicity of the edges. -/
def rank : String → Nat
  | "gexdepth" => 0
  | "adtdepth" => 0
  | "median_norm" => 0
  | "clr_norm" => 0
  | "plot" => 0
  | "gexdepthAPI" => 1
  | "adtdepthAPI" => 1
  | "adt_plot_norm" => 2
  | "dsb_norm" => 2
  | "dsbAPI" => 3
  | "medianAPI" => 3
  | "clrAPI" => 3
  | _ => 4

end Adt

/-! ## pipeline_geneticdemultiplexing.py -/

namespace Gdemux

/-- The body of the parsechannel sample loop.  The statements list is
cumulative: the source appends each statement to the list and calls
P.run(statements) inside the loop, so the commands for earlier samples
are submitted again on every later iteration. -/
def parsechannelLoop : List String → List (String × Bool) → List Action
  | _, [] => []
  | acc, (sam, dirMissing) :: rest =>
      (if dirMissing then [.mkdirA ("results." ++ sam)] else [])
        ++ .run (acc ++ ["Rscript parse_genetic_multiplexing.R " ++ sam])
        :: parsechannelLoop (acc ++ ["Rscript parse_genetic_multiplexing.R " ++ sam]) rest

/-- parsechannel: make results.channel.dir, run the per-sample parse
jobs with the cumulative statement list, then touch the sentinel.
The os.chdir side effects are not modelled. -/
def parsechannel_trace (samples : List (String × Bool)) : List Action :=
  .mkdirA ("results.channel.dir")
    :: parsechannelLoop [] samples
    ++ [.touch ("parsechannel.sentinel")]

/-- reportall: make the project results directory if needed and run the
project parse R script.  The body never touches its declared output
project.parser.sentinel. -/
def reportall_trace (project : String) (outdirMissing : Bool) : List Action :=
  (if outdirMissing then [.mkdirA ("results." ++ project ++ ".dir")] else [])
    ++ [.run ["Rscript parse_project_multiplexing.R " ++ project]]

/-- The ruffus output file declared for reportall by its transform
decorator. -/
def reportall_output : String := "project.parser.sentinel"

/-- full: an empty aggregation target. -/
def full_trace : List Action := []

/-- The runtime environment of a pipeline_geneticdemultiplexing run. -/
structure Env where
  samples : List (String × Bool)
  project : String
  outdirMissing : Bool

/-- All tasks of pipeline_geneticdemultiplexing as trace families. -/
def tasks : List (Env → List Action) :=
  [fun e => parsechannel_trace e.samples,
   fun e => reportall_trace e.project e.outdirMissing,
   fun _ => full_trace]

/-- The task-dependency edges declared by the ruffus decorators of
pipeline_geneticdemultiplexing.py. -/
def edges : List (String × String) :=
  [("parsechannel", "reportall"), ("reportall", "full")]

/-- A topological rank witnessing the acyclicity of the edges. -/
def rank : String → Nat
  | "parsechannel" => 0
  | "reportall" => 1
  | _ => 2

end Gdemux

/-! ## pipeline_integration.py -/

namespace Intg

/-- The path-existence loop of checkInputs: raise ValueError at the
first input matrix folder that does not exist. -/
def pathGuards (pathsPresent : List Bool) : List Action :=
  forEachT (fun ok =>
    guardValueError ok ("Aggregated filtered matrix input folder does not exist."))
    pathsPresent

/-- checkInputs: raise ValueError when input_samples.tsv is missing,
raise ValueError at the first missing input path, then touch the
sentinel. -/
def checkInputs_trace (inputPresent : Bool) (pathsPresent : List Bool) : List Action :=
  tseq (guardValueError inputPresent ("File specifying the input samples is not present."))
  (tseq (pathGuards pathsPresent) [.touch ("input.check.sentinel")])

/-- prepFolders: make the run directory if needed, then touch the
sentinel. -/
def prepFolders_trace (outdirMissing : Bool) : List Action :=
  (if outdirMissing then [.mkdirA ("run.dir")] else [])
    ++ [.touch ("prep_folder.sentinel")]

/-- runScanpyIntegration: make scanpy.dir if needed, dump the task yml,
submit the integration python job, then touch the sentinel. -/
def runScanpyIntegration_trace (outdirMissing : Bool) : List Action :=
  (if outdirMissing then [.mkdirA ("scanpy.dir")] else [])
    ++ [.write ("scanpy.dir/integration_python.yml") .yml,
        .run ["python run_scanpy_integration.py"],
        .touch ("scanpy.dir/integration_python.sentinel")]

/-- runScanpyUMAP: dump the task yml, submit the umap plotting python
job, then touch the sentinel. -/
def runScanpyUMAP_trace : List Action :=
  [.write ("scanpy.dir/plots_umap_scanpy.yml") .yml,
   .run ["python plot_umap_scanpy.py"],
   .touch ("scanpy.dir/plots_umap_scanpy.sentinel")]

/-- plotUMAP: make R_plots.dir if needed, dump the task yml, submit the
R plotting job, then touch the sentinel. -/
def plotUMAP_trace (outdirMissing : Bool) : List Action :=
  (if outdirMissing then [.mkdirA ("scanpy.dir/R_plots.dir")] else [])
    ++ [.write ("scanpy.dir/R_plots.dir/plot_umap.yml") .yml,
        .run ["Rscript integration_plot_umap.R"],
        .touch ("scanpy.dir/R_plots.dir/plots_umap.sentinel")]

/-- The per-tool folder check of summariseUMAP: raise ValueError when
the run folder for the selected parameter combination is absent. -/
def toolFolderGuards (tools : List (String × Bool)) : List Action :=
  forEachT (fun t =>
    guardValueError t.2 ("Folder with this setting is not present, adjust settings in yml"))
    tools

/-- One summary page of summariseUMAP: make the summary directory if
needed, write the latex variables file, make the compilation directory
if needed, submit pdflatex twice (deliberately, for latex cross
references), then move the compiled pdf into the summary directory. -/
def summaryBlock (s : String × Bool × Bool) : List Action :=
  (if s.2.1 then [.mkdirA ("summary.dir/" ++ s.1 ++ ".dir")] else [])
    ++ [.write ("summary.dir/" ++ s.1 ++ ".dir/latexVars.sty") .sty]
    ++ (if s.2.2 then [.mkdirA ("summary.dir/" ++ s.1 ++ ".dir/.latex_compilation.dir")] else [])
    ++ [.run ["pdflatex " ++ s.1], .run ["pdflatex " ++ s.1],
        .moveFile ("summary.dir/" ++ s.1 ++ ".dir/.latex_compilation.dir/" ++ s.1 ++ "_summary.pdf")
                  ("summary.dir/" ++ s.1 ++ ".dir/" ++ s.1 ++ "_summary.pdf") .pdf]

/-- summariseUMAP: make the summary output directory if needed, check
that the selected run folder exists for each tool, build each summary
page, then touch the sentinel. -/
def summariseUMAP_trace (outdirMissing : Bool) (tools : List (String × Bool))
    (summaries : List (String × Bool × Bool)) : List Action :=
  (if outdirMissing then [.mkdirA ("summary.dir")] else [])
    ++ tseq (toolFolderGuards tools)
            (forEachT summaryBlock summaries
              ++ [.touch ("summary.dir/make_summary.sentinel")])

/-- runLISIpy: make assess_integration.dir if needed, dump the task
yml, submit the lisi python job, then touch the sentinel. -/
def runLISIpy_trace (outdirMissing : Bool) : List Action :=
  (if outdirMissing then [.mkdirA ("scanpy.dir/assess_integration.dir")] else [])
    ++ [.write ("scanpy.dir/assess_integration.dir/run_ilisi.yml") .yml,
        .run ["python run_lisi.py"],
        .touch ("scanpy.dir/assess_integration.dir/run_ilisi.sentinel")]

/-- full: an empty aggregation target. -/
def full_trace : List Action := []

/-- The runtime environment of a pipeline_integration run. -/
structure Env where
  inputPresent : Bool
  pathsPresent : List Bool
  outdirMissing : Bool
  tools : List (String × Bool)
  summaries : List (String × Bool × Bool)

/-- All tasks of pipeline_integration as trace families. -/
def tasks : List (Env → List Action) :=
  [fun e => checkInputs_trace e.inputPresent e.pathsPresent,
   fun e => prepFolders_trace e.outdirMissing,
   fun e => runScanpyIntegration_trace e.outdirMissing,
   fun _ => runScanpyUMAP_trace,
   fun e => plotUMAP_trace e.outdirMissing,
   fun e => summariseUMAP_trace e.outdirMissing e.tools e.summaries,
   fun e => runLISIpy_trace e.outdirMissing,
   fun _ => full_trace]

/-- The task-dependency edges declared by the ruffus decorators of
pipeline_integration.py. -/
def edges : List (String × String) :=
  [("prepFolders", "runScanpyIntegration"),
   ("runScanpyIntegration", "runScanpyUMAP"),
   ("runScanpyUMAP", "plotUMAP"),
   ("plotUMAP", "summariseUMAP"),
   ("runScanpyUMAP", "runLISIpy"), ("runScanpyIntegration", "runLISIpy"),
   ("runScanpyUMAP", "full"), ("plotUMAP", "full"),
   ("runLISIpy", "full"), ("summariseUMAP", "full")]

/-- A topological rank witnessing the acyclicity of the edges. -/
def rank : String → Nat
  | "prepFolders" => 0
  | "runScanpyIntegration" => 1
  | "runScanpyUMAP" => 2
  | "plotUMAP" => 3
  | "summariseUMAP" => 4
  | "runLISIpy" => 4
  | _ => 5

end Intg

/-! ## pipelines/pipeline_ambient_rna.py (original variant) -/

namespace AmbOld

/-- The raw_path existence loop of checkInputs. -/
def rawPathGuards (pathsPresent : List Bool) : List Action :=
  forEachT (fun ok =>
    guardValueError ok ("Input folder from cellranger run does not exist."))
    pathsPresent

/-- checkInputs: raise ValueError when the input libraries tsv is
missing, raise ValueError at the first missing raw_path, then touch the
sentinel. -/
def checkInputs_trace (inputPresent : Bool) (pathsPresent : List Bool) : List Action :=
  tseq (guardValueError inputPresent ("File specifying the input libraries is not present."))
  (tseq (rawPathGuards pathsPresent) [.touch ("input.check.sentinel")])

/-- prepFolders: make the per-library folder if needed, then touch the
sentinel. -/
def prepFolders_trace (libraryId : String) (outdirMissing : Bool) : List Action :=
  (if outdirMissing then
    [.mkdirA ("ambient.rna.dir/profile_per_input.dir/" ++ libraryId)] else [])
    ++ [.touch ("ambient.rna.dir/profile_per_input.dir/" ++ libraryId ++ "/prep.sentinel")]

/-- ambient_rna_per_input: run the per-library ambient RNA analysis and
touch the sentinel.

Modelled from the spec: the helper tasks/ambient_rna.py (per_input) is
not under src/; per the task docstring it produces the html report and
the ambient_genes table for one library by running the
ambient_rna_per_library R script, as its cellhub counterpart does. -/
def ambient_rna_per_input_trace (libraryId : String) : List Action :=
  [.run ["Rscript ambient_rna_per_library.R " ++ libraryId],
   .touch ("ambient.rna.dir/profile_per_input.dir/" ++ libraryId ++ "/ambient_rna.sentinel")]

/-- ambient_rna_compare: run the cross-library comparison and touch the
sentinel.

Modelled from the spec: the helper tasks/ambient_rna.py (compare) is not
under src/; per the task docstring it produces the comparison report by
running the ambient_rna_compare R script, as its cellhub counterpart
does. -/
def ambient_rna_compare_trace : List Action :=
  [.run ["Rscript ambient_rna_compare.R"],
   .touch ("ambient.rna.dir/profile_compare.dir/ambient_rna_compare.sentinel")]

/-- plot: draw the pipeline flowchart as svg and png, then touch the
sentinel. -/
def plot_trace : List Action :=
  [.write ("ambient.rna.dir/pipeline_flowchart.svg") .svg,
   .write ("ambient.rna.dir/pipeline_flowchart.png") .png,
   .touch ("ambient.rna.dir/plot.sentinel")]

/-- full: an empty aggregation target. -/
def full_trace : List Action := []

/-- The runtime environment of a pipelines/pipeline_ambient_rna run. -/
structure Env where
  inputPresent : Bool
  pathsPresent : List Bool
  libraryId : String
  outdirMissing : Bool

/-- All tasks of pipelines/pipeline_ambient_rna as trace families. -/
def tasks : List (Env → List Action) :=
  [fun e => checkInputs_trace e.inputPresent e.pathsPresent,
   fun e => prepFolders_trace e.libraryId e.outdirMissing,
   fun e => ambient_rna_per_input_trace e.libraryId,
   fun _ => ambient_rna_compare_trace,
   fun _ => plot_trace,
   fun _ => full_trace]

/-- The task-dependency edges declared by the ruffus decorators of
pipelines/pipeline_ambient_rna.py. -/
def edges : List (String × String) :=
  [("checkInputs", "prepFolders"),
   ("prepFolders", "ambient_rna_per_input"),
   ("ambient_rna_per_input", "ambient_rna_compare"),
   ("ambient_rna_compare", "full"), ("plot", "full")]

/-- A topological rank witnessing the acyclicity of the edges. -/
def rank : String → Nat
  | "checkInputs" => 0
  | "prepFolders" => 1
  | "ambient_rna_per_input" => 2
  | "ambient_rna_compare" => 3
  | "plot" => 3
  | _ => 4

end AmbOld

/-! ## cellhub/pipeline_ambient_rna.py (cellhub variant) -/

namespace AmbNew

/-- ambient_rna_per_input: dump the task yml, run the per-library R
script, then touch the sentinel. -/
def ambient_rna_per_input_trace (libraryId : String) : List Action :=
  [.write ("ambient.rna.dir/profile_per_input.dir/" ++ libraryId ++ "/ambient_rna.yml") .yml,
   .run ["Rscript ambient_rna_per_library.R " ++ libraryId],
   .touch ("ambient.rna.dir/profile_per_input.dir/" ++ libraryId ++ "/ambient_rna.sentinel")]

/-- ambient_rna_compare: dump the task yml, run the comparison R
script, then touch the sentinel. -/
def ambient_rna_compare_trace : List Action :=
  [.write ("ambient.rna.dir/profile_compare.dir/ambient_rna_compare.yml") .yml,
   .run ["Rscript ambient_rna_compare.R"],
   .touch ("ambient.rna.dir/profile_compare.dir/ambient_rna_compare.sentinel")]

/-- plot: draw the pipeline flowchart as svg and png, then touch the
sentinel. -/
def plot_trace : List Action :=
  [.write ("ambient.rna.dir/pipeline_flowchart.svg") .svg,
   .write ("ambient.rna.dir/pipeline_flowchart.png") .png,
   .touch ("ambient.rna.dir/plot.sentinel")]

/-- full: an empty aggregation target. -/
def full_trace : List Action := []

/-- The runtime environment of a cellhub/pipeline_ambient_rna run. -/
structure Env where
  libraryId : String

/-- All tasks of cellhub/pipeline_ambient_rna as trace families. -/
def tasks : List (Env → List Action) :=
  [fun e => ambient_rna_per_input_trace e.libraryId,
   fun _ => ambient_rna_compare_trace,
   fun _ => plot_trace,
   fun _ => full_trace]

/-- The task-dependency edges declared by the ruffus decorators of
cellhub/pipeline_ambient_rna.py. -/
def edges : List (String × String) :=
  [("ambient_rna_per_input", "ambient_rna_compare"),
   ("ambient_rna_compare", "full"), ("plot", "full")]

/-- A topological rank witnessing the acyclicity of the edges. -/
def rank : String → Nat
  | "ambient_rna_per_input" => 0
  | "ambient_rna_compare" => 1
  | "plot" => 1
  | _ => 2

end AmbNew

/-! ## pipelines/pipeline_celldb.py -/

namespace Celldb

/-- A load task body: load a tsv table into the SQLite database, then
record completion in the .load marker file.

Modelled from the spec: the helper tasks/db.py (DB.load) is not under
src/; it loads the named table from the given path into the database
behind database_url and creates the outfile marker on completion. -/
def load_trace (table path outfile : String) : List Action :=
  [.dbLoad table path, .touch outfile]

/-- load_cellranger_stats: preprocess the per-library mapping statistics
into a tsv table in-process, load it into the database, then record
completion.

Modelled from the spec: the helper tasks/celldb.py
(preprocess_cellranger_stats) is not under src/; it reads the library
table and writes the reshaped statistics table to the tsv path. -/
def load_cellranger_stats_trace : List Action :=
  [.libCall ("tasks.celldb") ("preprocess_cellranger_stats"),
   .write ("celldb.dir/cellranger_stats.tsv") .tsv,
   .dbLoad ("cellranger_stats") ("celldb.dir/cellranger_stats.tsv"),
   .touch ("celldb.dir/cellranger_stats.load")]

/-- The CREATE VIEW statement executed by the final task. -/
def finalViewStmt : String :=
  "CREATE VIEW final AS SELECT s.*, l.*, qc.*, scrub.* FROM library l "
    ++ "LEFT JOIN gex_qcmetrics qc ON qc.library_id = l.library_id "
    ++ "LEFT JOIN sample s ON qc.library_id = s.library_id "
    ++ "LEFT JOIN gex_scrublet scrub ON qc.barcode_id = scrub.barcode_id"

/-- final: execute the CREATE VIEW statement through
database.executewait with retries=5 (a failed execution is re-attempted
up to five times), then touch the sentinel. -/
def final_trace : List Action :=
  [.dbExecWait finalViewStmt 5, .touch ("celldb.dir/final.sentinel")]

/-- full: an empty aggregation target. -/
def full_trace : List Action := []

/-- The runtime environment of a pipeline_celldb run: the configured
table names and paths. -/
structure Env where
  tableName : String
  tablePath : String

/-- The tasks of pipeline_celldb other than final, as trace families.
The final task is kept separate because it is the unique task that
re-attempts a failed action. -/
def tasks : List (Env → List Action) :=
  [fun e => load_trace e.tableName e.tablePath ("celldb.dir/sample.load"),
   fun e => load_trace e.tableName e.tablePath ("celldb.dir/libraries.load"),
   fun _ => load_cellranger_stats_trace,
   fun e => load_trace e.tableName e.tablePath ("celldb.dir/gex_qcmetrics.load"),
   fun e => load_trace e.tableName e.tablePath ("celldb.dir/scrublet.load"),
   fun _ => full_trace]

/-- The task-dependency edges declared by the ruffus decorators of
pipelines/pipeline_celldb.py. -/
def edges : List (String × String) :=
  [("load_samples", "final"), ("load_libraries", "final"),
   ("load_gex_qcmetrics", "final"), ("load_gex_scrublet", "final"),
   ("load_cellranger_stats", "final"),
   ("final", "full")]

/-- A topological rank witnessing the acyclicity of the edges. -/
def rank : String → Nat
  | "load_samples" => 0
  | "load_libraries" => 0
  | "load_gex_qcmetrics" => 0
  | "load_gex_scrublet" => 0
  | "load_cellranger_stats" => 0
  | "final" => 1
  | _ => 2

end Celldb

/-! ## python/cluster_umap.py

The standalone script: read the AnnData file, compute the UMAP embedding
in-process with scanpy, build the coordinate table in memory and write
it as a gzipped tsv.  The UMAP coordinates are real-valued; they are
modelled as rationals since every claim about the script concerns only
the shape of the table, never the numeric values. -/

namespace ClusterUmap

/-- The fields of the in-memory AnnData object the script uses after
sc.tl.umap has run: the observation (cell barcode) index and the
two-column X_umap matrix in obsm.  AnnData aligns obsm matrices with
obs, so in any real run both lists have length n_obs. -/
structure AnnData where
  obs_index : List String
  x_umap : List (Rat × Rat)
  deriving DecidableEq, Repr

/-- The pandas DataFrame the script builds: header and rows. -/
structure UmapTable where
  header : List String
  rows : List (Rat × Rat × String)
  deriving DecidableEq, Repr

/-- The table construction: a DataFrame over X_umap with columns UMAP_1
and UMAP_2, extended with a barcode_id column assigned positionally from
the observation index. -/
def cluster_umap_table (adata : AnnData) : UmapTable :=
  ⟨["UMAP_1", "UMAP_2", "barcode_id"],
   (adata.x_umap.zip adata.obs_index).map (fun p => (p.1.1, p.1.2, p.2))⟩

/-- The output path: os.path.join of the output directory with the name
built from the raw mindist command-line string (argparse stores the
argument with type str and the script concatenates it unconverted). -/
def cluster_umap_outfile (outdir mindist : String) : String :=
  outdir ++ "/umap." ++ mindist ++ ".tsv.gz"

/-- The action trace of the script: load the AnnData in-process,
compute the UMAP embedding in-process via the scanpy library, write the
coordinate table. -/
def cluster_umap_trace (outdir mindist : String) : List Action :=
  [.libCall ("anndata") ("read_h5ad"),
   .libCall ("scanpy") ("tl_umap"),
   .write (cluster_umap_outfile outdir mindist) .tsvgz]

end ClusterUmap

/-! ## The per-library [libraries] table filtering of the config task of
pipeline_cellranger_multi.py -/

namespace LibFilter

/-- One row of the per-library [libraries] table built by transposing
the comma-split yml columns; only the feature_types column is inspected
by the filters, the remaining cells are carried opaquely. -/
structure LibRow where
  feature_types : String
  cells : List String
  deriving DecidableEq, Repr

/-- Drop Gene Expression rows when run_gene-expression is false. -/
def gexMask (runGex : Bool) (df : List LibRow) : List LibRow :=
  if runGex then df
  else df.filter (fun r => !(r.feature_types == "Gene Expression"))

/-- Drop Antibody Capture rows when run_feature is false. -/
def featureMask (runFeature : Bool) (df : List LibRow) : List LibRow :=
  if runFeature then df
  else df.filter (fun r => !(r.feature_types == "Antibody Capture"))

/-- Drop VDJ-B rows when run_vdj is false (the source filters only on
feature type VDJ-B; there is no corresponding VDJ-T mask). -/
def vdjMask (runVdj : Bool) (df : List LibRow) : List LibRow :=
  if runVdj then df
  else df.filter (fun r => !(r.feature_types == "VDJ-B"))

/-- The three successive filters applied to the accumulated table in one
loop iteration. -/
def libFilterStep (runGex runFeature runVdj : Bool) (df : List LibRow) : List LibRow :=
  vdjMask runVdj (featureMask runFeature (gexMask runGex df))

/-- Concatenation of the transposed column chunks. -/
def chunksJoin : List (List LibRow) → List LibRow
  | [] => []
  | c :: rest => c ++ chunksJoin rest

/-- The source loop: for each column chunk, append it to the
accumulated smp_df and recompute df_filt from the accumulation.  The
final df_filt is what the task writes under the [libraries] header. -/
def configLibLoop (runGex runFeature runVdj : Bool) :
    List LibRow → List (List LibRow) → List LibRow → List LibRow
  | _, [], dfFilt => dfFilt
  | smp, c :: rest, _ =>
      configLibLoop runGex runFeature runVdj (smp ++ c) rest
        (libFilterStep runGex runFeature runVdj (smp ++ c))

/-- The [libraries] table written to the per-library csv. -/
def configLibTable (runGex runFeature runVdj : Bool)
    (chunks : List (List LibRow)) : List LibRow :=
  configLibLoop runGex runFeature runVdj [] chunks []

end LibFilter

/-! ## The useCounts filesystem effect (both cellranger pipelines) -/

namespace UseCounts

/-- A filesystem entry at the path api/counts. -/
inductive FsEntry where
  | file
  | dir
  | link (target : String)
  deriving DecidableEq, Repr

/-- os.path.exists on the api/counts path: true exactly when an entry is
present (symlink targets are taken to resolve). -/
def osPathExists : Option FsEntry → Bool
  | none => false
  | some _ => true

/-- The useCounts body: raise ValueError when api/counts exists,
otherwise create the symlink to the pipeline counts folder.  The result
pairs the raised ValueError message (if any) with the entry at
api/counts after the task. -/
def useCountsRun (src : String) (apiCounts : Option FsEntry) :
    Option String × Option FsEntry :=
  if osPathExists apiCounts then
    (some ("ValueError: Counts have already been registered to the API"), apiCounts)
  else
    (none, some (.link src))

end UseCounts

/-- A Boolean invariant holding for every task of every pipeline file,
over all runtime environments (pipeline_celldb final is carried
separately because it fails `noRetry`). -/
def AllFamiliesOk (P : List Action → Bool) : Prop :=
  FamilyOk P CrMulti.tasks ∧ FamilyOk P Cr.tasks ∧ FamilyOk P Adt.tasks
    ∧ FamilyOk P Gdemux.tasks ∧ FamilyOk P Intg.tasks ∧ FamilyOk P AmbOld.tasks
    ∧ FamilyOk P AmbNew.tasks ∧ FamilyOk P Celldb.tasks

/-- The output-kind restriction exactly as the specification claims it:
only sentinel and market-matrix/TSV files. -/
def claimOutputsOk (t : List Action) : Bool := t.all (writeKindOk claimFileKindOk)

/-! ## Generic lemmas about traces and invariants -/

theorem hasRaiseB_append (p q : List Action) :
    hasRaiseB (p ++ q) = (hasRaiseB p || hasRaiseB q) := by
  simp [hasRaiseB, List.any_append]

theorem hasRunB_append (p q : List Action) :
    hasRunB (p ++ q) = (hasRunB p || hasRunB q) := by
  simp [hasRunB, List.any_append]

theorem runBeforeRaise_of_noRaise {t : List Action} (h : hasRaiseB t = false) :
    runBeforeRaise t = false := by
  induction t with
  | nil => rfl
  | cons a r ih =>
      have h2 : hasRaiseB r = false := by
        simp only [hasRaiseB, List.any_cons, Bool.or_eq_false_iff] at h
        simp only [hasRaiseB]
        exact h.2
      simp only [runBeforeRaise, h2, Bool.and_false, Bool.false_or]
      exact ih h2

theorem runBeforeRaise_append {p q : List Action}
    (hp : runBeforeRaise p = false) (hq : runBeforeRaise q = false)
    (h : hasRunB p = false ∨ hasRaiseB q = false) :
    runBeforeRaise (p ++ q) = false := by
  induction p with
  | nil => simpa using hq
  | cons a r ih =>
      have hp1 : (isRun a && hasRaiseB r) = false := by
        simp only [runBeforeRaise, Bool.or_eq_false_iff] at hp
        exact hp.1
      have hp2 : runBeforeRaise r = false := by
        simp only [runBeforeRaise, Bool.or_eq_false_iff] at hp
        exact hp.2
      rcases h with h | h
      · have ha : isRun a = false := by
          simp only [hasRunB, List.any_cons, Bool.or_eq_false_iff] at h
          exact h.1
        have hrr : hasRunB r = false := by
          simp only [hasRunB, List.any_cons, Bool.or_eq_false_iff] at h
          simp only [hasRunB]
          exact h.2
        have htail := ih hp2 (Or.inl hrr)
        simp [runBeforeRaise, ha, htail]
      · have htail := ih hp2 (Or.inr h)
        have hhead : (isRun a && hasRaiseB (r ++ q)) = false := by
          rw [hasRaiseB_append, h, Bool.or_false]
          exact hp1
        simp [runBeforeRaise, hhead, htail]

theorem taskOk_iff {t : List Action} :
    taskOk t = true ↔ (∀ a ∈ t, goodAction a = true) ∧ runBeforeRaise t = false := by
  simp [taskOk, List.all_eq_true]

theorem taskOk_nil : taskOk [] = true := rfl

theorem taskOk_append {p q : List Action}
    (hp : taskOk p = true) (hq : taskOk q = true)
    (h : hasRunB p = false ∨ hasRaiseB q = false) :
    taskOk (p ++ q) = true := by
  rw [taskOk_iff] at hp hq ⊢
  refine ⟨?_, runBeforeRaise_append hp.2 hq.2 h⟩
  intro a ha
  rcases List.mem_append.mp ha with ha | ha
  · exact hp.1 a ha
  · exact hq.1 a ha

theorem taskOk_tseq {p q : List Action}
    (hp : taskOk p = true) (hq : taskOk q = true)
    (h : hasRunB p = false ∨ hasRaiseB q = false) :
    taskOk (tseq p q) = true := by
  unfold tseq
  by_cases hr : hasRaiseB p = true
  · simp [hr, hp]
  · simp only [Bool.not_eq_true] at hr
    simp [hr, taskOk_append hp hq h]

theorem hasRaiseB_tseq {p q : List Action}
    (hp : hasRaiseB p = false) (hq : hasRaiseB q = false) :
    hasRaiseB (tseq p q) = false := by
  simp [tseq, hp, hasRaiseB_append, hq]

theorem hasRunB_tseq {p q : List Action}
    (hp : hasRunB p = false) (hq : hasRunB q = false) :
    hasRunB (tseq p q) = false := by
  unfold tseq
  by_cases hr : hasRaiseB p = true
  · simp [hr, hp]
  · simp only [Bool.not_eq_true] at hr
    simp [hr, hasRunB_append, hp, hq]

theorem hasRaiseB_forEachT {f : α → List Action}
    (hf : ∀ x, hasRaiseB (f x) = false) (l : List α) :
    hasRaiseB (forEachT f l) = false := by
  induction l with
  | nil => rfl
  | cons x xs ih => exact hasRaiseB_tseq (hf x) ih

theorem hasRunB_forEachT {f : α → List Action}
    (hf : ∀ x, hasRunB (f x) = false) (l : List α) :
    hasRunB (forEachT f l) = false := by
  induction l with
  | nil => rfl
  | cons x xs ih => exact hasRunB_tseq (hf x) ih

theorem taskOk_forEachT_noRaise {f : α → List Action}
    (hf : ∀ x, taskOk (f x) = true) (hr : ∀ x, hasRaiseB (f x) = false)
    (l : List α) : taskOk (forEachT f l) = true := by
  induction l with
  | nil => exact taskOk_nil
  | cons x xs ih =>
      exact taskOk_tseq (hf x) ih (Or.inr (hasRaiseB_forEachT hr xs))

theorem taskOk_forEachT_noRun {f : α → List Action}
    (hf : ∀ x, taskOk (f x) = true) (hr : ∀ x, hasRunB (f x) = false)
    (l : List α) : taskOk (forEachT f l) = true := by
  induction l with
  | nil => exact taskOk_nil
  | cons x xs ih => exact taskOk_tseq (hf x) ih (Or.inl (hr x))

theorem taskOk_guard (ok : Bool) (msg : String) :
    taskOk (guardValueError ok msg) = true := by
  cases ok <;> simp [guardValueError, taskOk, goodAction, runBeforeRaise,
    raiseIsValueError, isRetried, writeKindOk, isRun, isLocalBookkeeping,
    isSciCall, hasRaiseB, isRaise]

theorem hasRunB_guard (ok : Bool) (msg : String) :
    hasRunB (guardValueError ok msg) = false := by
  cases ok <;> simp [guardValueError, hasRunB, isRun]

/-- Monotone consequences of the master invariant. -/
theorem taskOk_to_raisesOk {t : List Action} (h : taskOk t = true) :
    raisesOk t = true := by
  rw [taskOk_iff] at h
  have hall : ∀ a ∈ t, raiseIsValueError a = true := by
    intro a ha
    have := h.1 a ha
    simp [goodAction, Bool.and_eq_true] at this
    exact this.1.1.1.1
  simp [raisesOk, h.2, List.all_eq_true]
  exact hall

theorem taskOk_to_noRetry {t : List Action} (h : taskOk t = true) :
    noRetry t = true := by
  rw [taskOk_iff] at h
  simp [noRetry, List.all_eq_true]
  intro a ha
  have := h.1 a ha
  simp [goodAction, Bool.and_eq_true] at this
  exact this.1.1.1.2

theorem taskOk_to_outputsOk {t : List Action} (h : taskOk t = true) :
    outputsOk t = true := by
  rw [taskOk_iff] at h
  simp [outputsOk, List.all_eq_true]
  intro a ha
  have := h.1 a ha
  simp [goodAction, Bool.and_eq_true] at this
  exact this.1.1.2

theorem taskOk_to_plumbingOnly {t : List Action} (h : taskOk t = true) :
    plumbingOnly t = true := by
  rw [taskOk_iff] at h
  simp [plumbingOnly, List.all_eq_true]
  intro a ha
  have := h.1 a ha
  simp [goodAction, Bool.and_eq_true] at this
  exact this.1.2

theorem taskOk_to_noSciCall {t : List Action} (h : taskOk t = true) :
    noSciCall t = true := by
  rw [taskOk_iff] at h
  simp [noSciCall, List.all_eq_true]
  intro a ha
  have := h.1 a ha
  simp [goodAction, Bool.and_eq_true] at this
  exact this.2

theorem familyOk_of_taskOk {E : Type} {P : List Action → Bool}
    (hmono : ∀ t, taskOk t = true → P t = true)
    {fams : List (E → List Action)} (h : FamilyOk taskOk fams) :
    FamilyOk P fams :=
  fun f hf e => hmono _ (h f hf e)

theorem mem_tseq {a : Action} {p q : List Action} (h : a ∈ tseq p q) :
    a ∈ p ∨ a ∈ q := by
  unfold tseq at h
  split at h
  · exact Or.inl h
  · exact List.mem_append.mp h

theorem mem_forEachT {a : Action} {f : α → List Action} {l : List α}
    (h : a ∈ forEachT f l) : ∃ x ∈ l, a ∈ f x := by
  induction l with
  | nil => cases h
  | cons x xs ih =>
      rcases mem_tseq h with h | h
      · exact ⟨x, List.mem_cons_self x xs, h⟩
      · rcases ih h with ⟨y, hy, hay⟩
        exact ⟨y, List.mem_cons_of_mem x hy, hay⟩

theorem taskOk_of_noRaise {t : List Action}
    (h : ∀ a ∈ t, goodAction a = true ∧ isRaise a = false) :
    taskOk t = true := by
  rw [taskOk_iff]
  refine ⟨fun a ha => (h a ha).1, ?_⟩
  apply runBeforeRaise_of_noRaise
  simp only [hasRaiseB, List.any_eq_false, Bool.not_eq_true]
  intro a ha
  exact (h a ha).2

/-! ### The task-body invariant holds for every task of every pipeline
(for pipeline_celldb final: every part of it except `noRetry`). -/

theorem cm_taskSummary_ok : taskOk CrMulti.taskSummary_trace = true := by decide

theorem cm_cellrangerMulti_ok (lib : String) :
    taskOk (CrMulti.cellrangerMulti_trace lib) = true := by
  apply taskOk_of_noRaise
  intro a ha
  simp only [CrMulti.cellrangerMulti_trace, List.mem_cons, List.not_mem_nil,
    or_false] at ha
  rcases ha with rfl | rfl <;> exact ⟨rfl, rfl⟩

theorem cm_mtxAPI_ok (lib : String) (unf : Bool) (ps : List (String × Bool)) :
    taskOk (CrMulti.mtxAPI_trace lib unf ps) = true := by
  apply taskOk_of_noRaise
  intro a ha
  simp only [CrMulti.mtxAPI_trace, List.mem_append] at ha
  rcases ha with (ha | ha) | ha
  · unfold CrMulti.mtxRegisterIfPresent at ha
    split at ha
    · simp only [List.mem_cons, List.not_mem_nil, or_false] at ha
      subst ha; exact ⟨rfl, rfl⟩
    · cases ha
  · rcases mem_forEachT ha with ⟨x, _, hax⟩
    unfold CrMulti.mtxRegisterIfPresent at hax
    split at hax
    · simp only [List.mem_cons, List.not_mem_nil, or_false] at hax
      subst hax; exact ⟨rfl, rfl⟩
    · cases hax
  · simp only [List.mem_cons, List.not_mem_nil, or_false] at ha
    subst ha; exact ⟨rfl, rfl⟩

theorem cm_refGuard_ok (r s p : Bool) (w : String) :
    taskOk (CrMulti.refGuard r s p w) = true := by
  cases r
  · exact taskOk_nil
  · exact taskOk_tseq (taskOk_guard _ _) (taskOk_guard _ _)
      (Or.inl (hasRunB_guard _ _))

theorem cm_refGuard_noRun (r s p : Bool) (w : String) :
    hasRunB (CrMulti.refGuard r s p w) = false := by
  cases r
  · rfl
  · exact hasRunB_tseq (hasRunB_guard _ _) (hasRunB_guard _ _)

theorem cm_config_ok (g gs gp f fs fp v vs vp : Bool) (libs : List String) :
    taskOk (CrMulti.config_trace g gs gp f fs fp v vs vp libs) = true := by
  unfold CrMulti.config_trace
  refine taskOk_tseq (cm_refGuard_ok _ _ _ _) ?_ (Or.inl (cm_refGuard_noRun _ _ _ _))
  refine taskOk_tseq (cm_refGuard_ok _ _ _ _) ?_ (Or.inl (cm_refGuard_noRun _ _ _ _))
  refine taskOk_tseq (cm_refGuard_ok _ _ _ _) ?_ (Or.inl (cm_refGuard_noRun _ _ _ _))
  apply taskOk_of_noRaise
  intro a ha
  rcases List.mem_append.mp ha with ha | ha
  · rcases mem_forEachT ha with ⟨x, _, hax⟩
    simp only [List.mem_cons, List.not_mem_nil, or_false] at hax
    subst hax; exact ⟨rfl, rfl⟩
  · simp only [List.mem_cons, List.not_mem_nil, or_false] at ha
    subst ha; exact ⟨rfl, rfl⟩

theorem cm_h5API_ok (lib : String) (m : Bool) (dirs : List String) :
    taskOk (CrMulti.h5API_trace lib m dirs) = true := by
  apply taskOk_of_noRaise
  intro a ha
  simp only [CrMulti.h5API_trace, List.mem_append] at ha
  rcases ha with ((ha | ha) | ha) | ha
  · split at ha
    · simp only [List.mem_cons, List.not_mem_nil, or_false] at ha
      subst ha; exact ⟨rfl, rfl⟩
    · cases ha
  · simp only [List.mem_cons, List.not_mem_nil, or_false] at ha
    subst ha; exact ⟨rfl, rfl⟩
  · rcases mem_forEachT ha with ⟨x, _, hax⟩
    simp only [List.mem_cons, List.not_mem_nil, or_false] at hax
    subst hax; exact ⟨rfl, rfl⟩
  · simp only [List.mem_cons, List.not_mem_nil, or_false] at ha
    subst ha; exact ⟨rfl, rfl⟩

theorem cm_contig_good (o : String) :
    ∀ a ∈ CrMulti.contigAnnotations o, goodAction a = true ∧ isRaise a = false := by
  intro a ha
  simp only [CrMulti.contigAnnotations, List.mem_cons, List.not_mem_nil,
    or_false] at ha
  rcases ha with rfl | rfl <;> exact ⟨rfl, rfl⟩

theorem cm_vdjTypeBlock_good (lib ty : String) (p : Bool) (dirs : List String) :
    ∀ a ∈ CrMulti.vdjTypeBlock lib ty p dirs,
      goodAction a = true ∧ isRaise a = false := by
  intro a ha
  unfold CrMulti.vdjTypeBlock at ha
  split at ha
  · rcases List.mem_append.mp ha with ha | ha
    · exact cm_contig_good _ a ha
    · rcases mem_forEachT ha with ⟨x, _, hax⟩
      exact cm_contig_good _ a hax
  · cases ha

theorem cm_postProcessVDJ_ok (lib : String) (m b t : Bool) (dirs : List String) :
    taskOk (CrMulti.postProcessVDJ_trace lib m b t dirs) = true := by
  apply taskOk_of_noRaise
  intro a ha
  simp only [CrMulti.postProcessVDJ_trace, List.mem_append] at ha
  rcases ha with ((ha | ha) | ha) | ha
  · split at ha
    · simp only [List.mem_cons, List.not_mem_nil, or_false] at ha
      subst ha; exact ⟨rfl, rfl⟩
    · cases ha
  · exact cm_vdjTypeBlock_good _ _ _ _ a ha
  · exact cm_vdjTypeBlock_good _ _ _ _ a ha
  · simp only [List.mem_cons, List.not_mem_nil, or_false] at ha
    subst ha; exact ⟨rfl, rfl⟩

theorem cm_vdjRegister_good (p : Bool) (s ty : String) :
    ∀ a ∈ CrMulti.vdjRegisterIfPresent p s ty,
      goodAction a = true ∧ isRaise a = false := by
  intro a ha
  unfold CrMulti.vdjRegisterIfPresent at ha
  split at ha
  · simp only [List.mem_cons, List.not_mem_nil, or_false] at ha
    subst ha; exact ⟨rfl, rfl⟩
  · cases ha

theorem cm_vdjAPI_ok (b1 b2 b3 b4 : Bool) :
    taskOk (CrMulti.vdjAPI_trace b1 b2 b3 b4) = true := by
  apply taskOk_of_noRaise
  intro a ha
  simp only [CrMulti.vdjAPI_trace, List.mem_append] at ha
  rcases ha with ((ha | ha) | ha) | ha
  · exact cm_vdjRegister_good _ _ _ a ha
  · exact cm_vdjRegister_good _ _ _ a ha
  · exact cm_vdjRegister_good _ _ _ a ha
  · exact cm_vdjRegister_good _ _ _ a ha

theorem cm_full_ok : taskOk CrMulti.full_trace = true := taskOk_nil

theorem cm_useCounts_ok (b : Bool) :
    taskOk (CrMulti.useCounts_trace b) = true := by
  cases b <;> decide

theorem cr_count_ok (lib : String) : taskOk (Cr.count_trace lib) = true := by
  apply taskOk_of_noRaise
  intro a ha
  simp only [Cr.count_trace, List.mem_cons, List.not_mem_nil, or_false] at ha
  rcases ha with rfl | rfl <;> exact ⟨rfl, rfl⟩

theorem cr_mtxBranch_ok (p : Bool) (id : String) :
    taskOk (Cr.mtxBranch p id) = true := by
  cases p <;> rfl

theorem cr_mtxBranch_noRun (p : Bool) (id : String) :
    hasRunB (Cr.mtxBranch p id) = false := by
  cases p <;> rfl

theorem cr_mtxAPI_ok (lib : String) (u f : Bool) :
    taskOk (Cr.mtxAPI_trace lib u f) = true := by
  unfold Cr.mtxAPI_trace
  refine taskOk_tseq (cr_mtxBranch_ok _ _) ?_ (Or.inl (cr_mtxBranch_noRun _ _))
  exact taskOk_tseq (cr_mtxBranch_ok _ _) rfl (Or.inl (cr_mtxBranch_noRun _ _))

theorem cr_h5API_ok (lib : String) (m : Bool) :
    taskOk (Cr.h5API_trace lib m) = true := by
  apply taskOk_of_noRaise
  intro a ha
  simp only [Cr.h5API_trace, List.mem_append] at ha
  rcases ha with ha | ha
  · split at ha
    · simp only [List.mem_cons, List.not_mem_nil, or_false] at ha
      subst ha; exact ⟨rfl, rfl⟩
    · cases ha
  · simp only [List.mem_cons, List.not_mem_nil, or_false] at ha
    rcases ha with rfl | rfl | rfl <;> exact ⟨rfl, rfl⟩

theorem cr_tcr_ok (lib : String) : taskOk (Cr.tcr_trace lib) = true := by
  apply taskOk_of_noRaise
  intro a ha
  simp only [Cr.tcr_trace, List.mem_cons, List.not_mem_nil, or_false] at ha
  rcases ha with rfl | rfl <;> exact ⟨rfl, rfl⟩

theorem cr_registerTCR_ok (lib : String) :
    taskOk (Cr.registerTCR_trace lib) = true := by
  apply taskOk_of_noRaise
  intro a ha
  simp only [Cr.registerTCR_trace, List.mem_cons, List.not_mem_nil, or_false] at ha
  rcases ha with rfl | rfl | rfl <;> exact ⟨rfl, rfl⟩

theorem cr_mergeTCR_ok : taskOk Cr.mergeTCR_trace = true := by decide

theorem cr_regMergedTCR_ok : taskOk Cr.registerMergedTCR_trace = true := by decide

theorem cr_bcr_ok (lib : String) : taskOk (Cr.bcr_trace lib) = true := by
  apply taskOk_of_noRaise
  intro a ha
  simp only [Cr.bcr_trace, List.mem_cons, List.not_mem_nil, or_false] at ha
  rcases ha with rfl | rfl <;> exact ⟨rfl, rfl⟩

theorem cr_registerBCR_ok (lib : String) :
    taskOk (Cr.registerBCR_trace lib) = true := by
  apply taskOk_of_noRaise
  intro a ha
  simp only [Cr.registerBCR_trace, List.mem_cons, List.not_mem_nil, or_false] at ha
  rcases ha with rfl | rfl | rfl <;> exact ⟨rfl, rfl⟩

theorem cr_mergeBCR_ok : taskOk Cr.mergeBCR_trace = true := by decide

theorem cr_regMergedBCR_ok : taskOk Cr.registerMergedBCR_trace = true := by decide

theorem cr_full_ok : taskOk Cr.full_trace = true := taskOk_nil

theorem cr_useCounts_ok (b : Bool) : taskOk (Cr.useCounts_trace b) = true := by
  cases b <;> decide

theorem adt_ladder2_good (o p : Bool) (x y : String) :
    ∀ a ∈ Adt.mkdirLadder2 o p x y, goodAction a = true ∧ isRaise a = false := by
  intro a ha
  unfold Adt.mkdirLadder2 at ha
  split at ha
  · split at ha
    · simp only [List.mem_cons, List.not_mem_nil, or_false] at ha
      rcases ha with rfl | rfl <;> exact ⟨rfl, rfl⟩
    · cases ha
  · cases ha

theorem adt_ladder3_good (o p u : Bool) (x y z : String) :
    ∀ a ∈ Adt.mkdirLadder3 o p u x y z, goodAction a = true ∧ isRaise a = false := by
  intro a ha
  unfold Adt.mkdirLadder3 at ha
  split at ha
  · split at ha
    · split at ha
      · simp only [List.mem_cons, List.not_mem_nil, or_false] at ha
        rcases ha with rfl | rfl | rfl <;> exact ⟨rfl, rfl⟩
      · cases ha
    · cases ha
  · cases ha

theorem adt_gexdepth_ok (lib : String) (o p : Bool) :
    taskOk (Adt.gexdepth_trace lib o p) = true := by
  apply taskOk_of_noRaise
  intro a ha
  simp only [Adt.gexdepth_trace, List.mem_append] at ha
  rcases ha with ha | ha
  · exact adt_ladder2_good _ _ _ _ a ha
  · simp only [List.mem_cons, List.not_mem_nil, or_false] at ha
    rcases ha with rfl | rfl <;> exact ⟨rfl, rfl⟩

theorem adt_gexdepthAPI_ok : taskOk Adt.gexdepthAPI_trace = true := by decide

theorem adt_adtdepth_ok (lib : String) (o p u : Bool) :
    taskOk (Adt.adtdepth_trace lib o p u) = true := by
  apply taskOk_of_noRaise
  intro a ha
  simp only [Adt.adtdepth_trace, List.mem_append] at ha
  rcases ha with ha | ha
  · exact adt_ladder3_good _ _ _ _ _ _ a ha
  · simp only [List.mem_cons, List.not_mem_nil, or_false] at ha
    rcases ha with rfl | rfl <;> exact ⟨rfl, rfl⟩

theorem adt_adtdepthAPI_ok : taskOk Adt.adtdepthAPI_trace = true := by decide

theorem adt_plotnorm_ok (lib : String) (o p : Bool) :
    taskOk (Adt.adt_plot_norm_trace lib o p) = true := by
  apply taskOk_of_noRaise
  intro a ha
  simp only [Adt.adt_plot_norm_trace, List.mem_append] at ha
  rcases ha with ha | ha
  · exact adt_ladder2_good _ _ _ _ a ha
  · simp only [List.mem_cons, List.not_mem_nil, or_false] at ha
    rcases ha with rfl | rfl <;> exact ⟨rfl, rfl⟩

theorem adt_dsbnorm_ok (lib : String) (o p : Bool) :
    taskOk (Adt.dsb_norm_trace lib o p) = true := by
  apply taskOk_of_noRaise
  intro a ha
  simp only [Adt.dsb_norm_trace, List.mem_append] at ha
  rcases ha with ha | ha
  · exact adt_ladder2_good _ _ _ _ a ha
  · simp only [List.mem_cons, List.not_mem_nil, or_false] at ha
    rcases ha with rfl | rfl <;> exact ⟨rfl, rfl⟩

theorem adt_dsbAPI_ok (lib : String) : taskOk (Adt.dsbAPI_trace lib) = true := by
  apply taskOk_of_noRaise
  intro a ha
  simp only [Adt.dsbAPI_trace, List.mem_cons, List.not_mem_nil, or_false] at ha
  rcases ha with rfl | rfl <;> exact ⟨rfl, rfl⟩

theorem adt_mediannorm_ok (lib : String) (o p u : Bool) :
    taskOk (Adt.median_norm_trace lib o p u) = true := by
  apply taskOk_of_noRaise
  intro a ha
  simp only [Adt.median_norm_trace, List.mem_append] at ha
  rcases ha with ha | ha
  · exact adt_ladder3_good _ _ _ _ _ _ a ha
  · simp only [List.mem_cons, List.not_mem_nil, or_false] at ha
    rcases ha with rfl | rfl <;> exact ⟨rfl, rfl⟩

theorem adt_medianAPI_ok (lib : String) :
    taskOk (Adt.medianAPI_trace lib) = true := by
  apply taskOk_of_noRaise
  intro a ha
  simp only [Adt.medianAPI_trace, List.mem_cons, List.not_mem_nil, or_false] at ha
  rcases ha with rfl | rfl <;> exact ⟨rfl, rfl⟩

theorem adt_clrnorm_ok (lib : String) (o p u : Bool) :
    taskOk (Adt.clr_norm_trace lib o p u) = true := by
  apply taskOk_of_noRaise
  intro a ha
  simp only [Adt.clr_norm_trace, List.mem_append] at ha
  rcases ha with ha | ha
  · exact adt_ladder3_good _ _ _ _ _ _ a ha
  · simp only [List.mem_cons, List.not_mem_nil, or_false] at ha
    rcases ha with rfl | rfl <;> exact ⟨rfl, rfl⟩

theorem adt_clrAPI_ok (lib : String) : taskOk (Adt.clrAPI_trace lib) = true := by
  apply taskOk_of_noRaise
  intro a ha
  simp only [Adt.clrAPI_trace, List.mem_cons, List.not_mem_nil, or_false] at ha
  rcases ha with rfl | rfl <;> exact ⟨rfl, rfl⟩

theorem adt_plot_ok : taskOk Adt.plot_trace = true := by decide

theorem adt_full_ok : taskOk Adt.full_trace = true := taskOk_nil

theorem gd_loop_good (acc : List String) (samples : List (String × Bool)) :
    ∀ a ∈ Gdemux.parsechannelLoop acc samples,
      goodAction a = true ∧ isRaise a = false := by
  induction samples generalizing acc with
  | nil => intro a ha; cases ha
  | cons s rest ih =>
      intro a ha
      obtain ⟨sam, dm⟩ := s
      simp only [Gdemux.parsechannelLoop, List.mem_append] at ha
      rcases ha with ha | ha
      · split at ha
        · simp only [List.mem_cons, List.not_mem_nil, or_false] at ha
          subst ha; exact ⟨rfl, rfl⟩
        · cases ha
      · simp only [List.mem_cons] at ha
        rcases ha with rfl | ha
        · exact ⟨rfl, rfl⟩
        · exact ih _ a ha

theorem gd_parsechannel_ok (samples : List (String × Bool)) :
    taskOk (Gdemux.parsechannel_trace samples) = true := by
  apply taskOk_of_noRaise
  intro a ha
  simp only [Gdemux.parsechannel_trace] at ha
  rcases List.mem_cons.mp ha with rfl | ha
  · exact ⟨rfl, rfl⟩
  · rcases List.mem_append.mp ha with ha | ha
    · exact gd_loop_good _ _ a ha
    · simp only [List.mem_cons, List.not_mem_nil, or_false] at ha
      subst ha; exact ⟨rfl, rfl⟩

theorem gd_reportall_ok (p : String) (b : Bool) :
    taskOk (Gdemux.reportall_trace p b) = true := by
  cases b <;> rfl

theorem gd_full_ok : taskOk Gdemux.full_trace = true := taskOk_nil

theorem in_pathGuards_ok (paths : List Bool) :
    taskOk (Intg.pathGuards paths) = true :=
  taskOk_forEachT_noRun (fun _ => taskOk_guard _ _) (fun _ => hasRunB_guard _ _) _

theorem in_pathGuards_noRun (paths : List Bool) :
    hasRunB (Intg.pathGuards paths) = false :=
  hasRunB_forEachT (fun _ => hasRunB_guard _ _) _

theorem in_checkInputs_ok (p : Bool) (paths : List Bool) :
    taskOk (Intg.checkInputs_trace p paths) = true := by
  unfold Intg.checkInputs_trace
  refine taskOk_tseq (taskOk_guard _ _) ?_ (Or.inl (hasRunB_guard _ _))
  exact taskOk_tseq (in_pathGuards_ok _) (by decide) (Or.inl (in_pathGuards_noRun _))

theorem in_prepFolders_ok (b : Bool) :
    taskOk (Intg.prepFolders_trace b) = true := by
  cases b <;> decide

theorem in_runScanpyIntegration_ok (b : Bool) :
    taskOk (Intg.runScanpyIntegration_trace b) = true := by
  cases b <;> decide

theorem in_runScanpyUMAP_ok : taskOk Intg.runScanpyUMAP_trace = true := by decide

theorem in_plotUMAP_ok (b : Bool) : taskOk (Intg.plotUMAP_trace b) = true := by
  cases b <;> decide

theorem in_toolFolderGuards_ok (tools : List (String × Bool)) :
    taskOk (Intg.toolFolderGuards tools) = true :=
  taskOk_forEachT_noRun (fun _ => taskOk_guard _ _) (fun _ => hasRunB_guard _ _) _

theorem in_toolFolderGuards_noRun (tools : List (String × Bool)) :
    hasRunB (Intg.toolFolderGuards tools) = false :=
  hasRunB_forEachT (fun _ => hasRunB_guard _ _) _

theorem in_summaryBlock_good (s : String × Bool × Bool) :
    ∀ a ∈ Intg.summaryBlock s, goodAction a = true ∧ isRaise a = false := by
  obtain ⟨n, b1, b2⟩ := s
  intro a ha
  simp only [Intg.summaryBlock, List.mem_append] at ha
  rcases ha with ((ha | ha) | ha) | ha
  · split at ha
    · simp only [List.mem_cons, List.not_mem_nil, or_false] at ha
      subst ha; exact ⟨rfl, rfl⟩
    · cases ha
  · simp only [List.mem_cons, List.not_mem_nil, or_false] at ha
    subst ha; exact ⟨rfl, rfl⟩
  · split at ha
    · simp only [List.mem_cons, List.not_mem_nil, or_false] at ha
      subst ha; exact ⟨rfl, rfl⟩
    · cases ha
  · simp only [List.mem_cons, List.not_mem_nil, or_false] at ha
    rcases ha with rfl | rfl | rfl <;> exact ⟨rfl, rfl⟩

theorem in_summaryBlock_ok (s : String × Bool × Bool) :
    taskOk (Intg.summaryBlock s) = true :=
  taskOk_of_noRaise (in_summaryBlock_good s)

theorem in_summaryBlock_noRaise (s : String × Bool × Bool) :
    hasRaiseB (Intg.summaryBlock s) = false := by
  simp only [hasRaiseB, List.any_eq_false, Bool.not_eq_true]
  intro a ha
  exact (in_summaryBlock_good s a ha).2

theorem in_summariseUMAP_ok (m : Bool) (tools : List (String × Bool))
    (summaries : List (String × Bool × Bool)) :
    taskOk (Intg.summariseUMAP_trace m tools summaries) = true := by
  unfold Intg.summariseUMAP_trace
  refine taskOk_append ?_ ?_ (Or.inl ?_)
  · cases m <;> decide
  · refine taskOk_tseq (in_toolFolderGuards_ok _) ?_
      (Or.inl (in_toolFolderGuards_noRun _))
    refine taskOk_append
      (taskOk_forEachT_noRaise in_summaryBlock_ok in_summaryBlock_noRaise _)
      (by decide) (Or.inr ?_)
    decide
  · cases m <;> decide

theorem in_runLISIpy_ok (b : Bool) : taskOk (Intg.runLISIpy_trace b) = true := by
  cases b <;> decide

theorem in_full_ok : taskOk Intg.full_trace = true := taskOk_nil

theorem ao_rawPathGuards_ok (paths : List Bool) :
    taskOk (AmbOld.rawPathGuards paths) = true :=
  taskOk_forEachT_noRun (fun _ => taskOk_guard _ _) (fun _ => hasRunB_guard _ _) _

theorem ao_rawPathGuards_noRun (paths : List Bool) :
    hasRunB (AmbOld.rawPathGuards paths) = false :=
  hasRunB_forEachT (fun _ => hasRunB_guard _ _) _

theorem ao_checkInputs_ok (p : Bool) (paths : List Bool) :
    taskOk (AmbOld.checkInputs_trace p paths) = true := by
  unfold AmbOld.checkInputs_trace
  refine taskOk_tseq (taskOk_guard _ _) ?_ (Or.inl (hasRunB_guard _ _))
  exact taskOk_tseq (ao_rawPathGuards_ok _) (by decide)
    (Or.inl (ao_rawPathGuards_noRun _))

theorem ao_prepFolders_ok (lib : String) (b : Bool) :
    taskOk (AmbOld.prepFolders_trace lib b) = true := by
  cases b <;> rfl

theorem ao_perInput_ok (lib : String) :
    taskOk (AmbOld.ambient_rna_per_input_trace lib) = true := by rfl

theorem ao_compare_ok : taskOk AmbOld.ambient_rna_compare_trace = true := by decide

theorem ao_plot_ok : taskOk AmbOld.plot_trace = true := by decide

theorem ao_full_ok : taskOk AmbOld.full_trace = true := taskOk_nil

theorem an_perInput_ok (lib : String) :
    taskOk (AmbNew.ambient_rna_per_input_trace lib) = true := by rfl

theorem an_compare_ok : taskOk AmbNew.ambient_rna_compare_trace = true := by decide

theorem an_plot_ok : taskOk AmbNew.plot_trace = true := by decide

theorem an_full_ok : taskOk AmbNew.full_trace = true := taskOk_nil

theorem cd_load_ok (t p o : String) : taskOk (Celldb.load_trace t p o) = true := by rfl

theorem cd_loadStats_ok : taskOk Celldb.load_cellranger_stats_trace = true := by
  decide

theorem cd_full_ok : taskOk Celldb.full_trace = true := taskOk_nil

/-- Every part of the final task invariant except no-retry: its raises
(none) are fine, its outputs are fine, it is plumbing only and performs
no scientific computation in-process. -/
theorem cd_final_base :
    raisesOk Celldb.final_trace = true ∧ outputsOk Celldb.final_trace = true
      ∧ plumbingOnly Celldb.final_trace = true
      ∧ noSciCall Celldb.final_trace = true := by decide

/-- The final task does contain a retried action: taskOk fails on it. -/
theorem cd_final_retries : noRetry Celldb.final_trace = false := by decide

/-! ### Master family lemmas: the task-body invariant across each
pipeline, and its propagation to the component invariants. -/

theorem crmulti_family_ok : FamilyOk taskOk CrMulti.tasks := by
  intro f hf e
  simp only [CrMulti.tasks, List.mem_cons, List.not_mem_nil, or_false] at hf
  rcases hf with rfl | rfl | rfl | rfl | rfl | rfl | rfl | rfl | rfl
  · exact cm_taskSummary_ok
  · exact cm_config_ok _ _ _ _ _ _ _ _ _ _
  · exact cm_cellrangerMulti_ok _
  · exact cm_mtxAPI_ok _ _ _
  · exact cm_h5API_ok _ _ _
  · exact cm_postProcessVDJ_ok _ _ _ _ _
  · exact cm_vdjAPI_ok _ _ _ _
  · exact cm_full_ok
  · exact cm_useCounts_ok _

theorem cr_family_ok : FamilyOk taskOk Cr.tasks := by
  intro f hf e
  simp only [Cr.tasks, List.mem_cons, List.not_mem_nil, or_false] at hf
  rcases hf with rfl | rfl | rfl | rfl | rfl | rfl | rfl | rfl | rfl | rfl | rfl | rfl | rfl
  · exact cr_count_ok _
  · exact cr_mtxAPI_ok _ _ _
  · exact cr_h5API_ok _ _
  · exact cr_tcr_ok _
  · exact cr_registerTCR_ok _
  · exact cr_mergeTCR_ok
  · exact cr_regMergedTCR_ok
  · exact cr_bcr_ok _
  · exact cr_registerBCR_ok _
  · exact cr_mergeBCR_ok
  · exact cr_regMergedBCR_ok
  · exact cr_full_ok
  · exact cr_useCounts_ok _

theorem adt_family_ok : FamilyOk taskOk Adt.tasks := by
  intro f hf e
  simp only [Adt.tasks, List.mem_cons, List.not_mem_nil, or_false] at hf
  rcases hf with rfl | rfl | rfl | rfl | rfl | rfl | rfl | rfl | rfl | rfl | rfl | rfl | rfl
  · exact adt_gexdepth_ok _ _ _
  · exact adt_gexdepthAPI_ok
  · exact adt_adtdepth_ok _ _ _ _
  · exact adt_adtdepthAPI_ok
  · exact adt_plotnorm_ok _ _ _
  · exact adt_dsbnorm_ok _ _ _
  · exact adt_dsbAPI_ok _
  · exact adt_mediannorm_ok _ _ _ _
  · exact adt_medianAPI_ok _
  · exact adt_clrnorm_ok _ _ _ _
  · exact adt_clrAPI_ok _
  · exact adt_plot_ok
  · exact adt_full_ok

theorem gdemux_family_ok : FamilyOk taskOk Gdemux.tasks := by
  intro f hf e
  simp only [Gdemux.tasks, List.mem_cons, List.not_mem_nil, or_false] at hf
  rcases hf with rfl | rfl | rfl
  · exact gd_parsechannel_ok _
  · exact gd_reportall_ok _ _
  · exact gd_full_ok

theorem intg_family_ok : FamilyOk taskOk Intg.tasks := by
  intro f hf e
  simp only [Intg.tasks, List.mem_cons, List.not_mem_nil, or_false] at hf
  rcases hf with rfl | rfl | rfl | rfl | rfl | rfl | rfl | rfl
  · exact in_checkInputs_ok _ _
  · exact in_prepFolders_ok _
  · exact in_runScanpyIntegration_ok _
  · exact in_runScanpyUMAP_ok
  · exact in_plotUMAP_ok _
  · exact in_summariseUMAP_ok _ _ _
  · exact in_runLISIpy_ok _
  · exact in_full_ok

theorem ambold_family_ok : FamilyOk taskOk AmbOld.tasks := by
  intro f hf e
  simp only [AmbOld.tasks, List.mem_cons, List.not_mem_nil, or_false] at hf
  rcases hf with rfl | rfl | rfl | rfl | rfl | rfl
  · exact ao_checkInputs_ok _ _
  · exact ao_prepFolders_ok _ _
  · exact ao_perInput_ok _
  · exact ao_compare_ok
  · exact ao_plot_ok
  · exact ao_full_ok

theorem ambnew_family_ok : FamilyOk taskOk AmbNew.tasks := by
  intro f hf e
  simp only [AmbNew.tasks, List.mem_cons, List.not_mem_nil, or_false] at hf
  rcases hf with rfl | rfl | rfl | rfl
  · exact an_perInput_ok _
  · exact an_compare_ok
  · exact an_plot_ok
  · exact an_full_ok

theorem celldb_family_ok : FamilyOk taskOk Celldb.tasks := by
  intro f hf e
  simp only [Celldb.tasks, List.mem_cons, List.not_mem_nil, or_false] at hf
  rcases hf with rfl | rfl | rfl | rfl | rfl | rfl
  · exact cd_load_ok _ _ _
  · exact cd_load_ok _ _ _
  · exact cd_loadStats_ok
  · exact cd_load_ok _ _ _
  · exact cd_load_ok _ _ _
  · exact cd_full_ok

theorem all_families_taskOk : AllFamiliesOk taskOk :=
  ⟨crmulti_family_ok, cr_family_ok, adt_family_ok, gdemux_family_ok,
   intg_family_ok, ambold_family_ok, ambnew_family_ok, celldb_family_ok⟩

theorem allFamiliesOk_mono {P : List Action → Bool}
    (hmono : ∀ t, taskOk t = true → P t = true)
    (h : AllFamiliesOk taskOk) : AllFamiliesOk P :=
  ⟨familyOk_of_taskOk hmono h.1, familyOk_of_taskOk hmono h.2.1,
   familyOk_of_taskOk hmono h.2.2.1, familyOk_of_taskOk hmono h.2.2.2.1,
   familyOk_of_taskOk hmono h.2.2.2.2.1, familyOk_of_taskOk hmono h.2.2.2.2.2.1,
   familyOk_of_taskOk hmono h.2.2.2.2.2.2.1, familyOk_of_taskOk hmono h.2.2.2.2.2.2.2⟩

/-! ### Acyclicity of the declared dependency graphs -/

theorem acyclic_of_rank (es : List (String × String)) (rk : String → Nat)
    (h : ∀ p ∈ es, rk p.1 < rk p.2) : AcyclicEdges es := by
  have mono : ∀ a b, Reach es a b → rk a < rk b := by
    intro a b r
    induction r with
    | single h1 => exact h _ h1
    | tail _ h2 ih => exact lt_trans ih (h _ h2)
  intro n hn
  exact lt_irrefl _ (mono n n hn)

/-! ### Helper lemmas for the config [libraries] filtering -/

theorem configLibLoop_eq (g f v : Bool) (smp c : List LibFilter.LibRow)
    (rest : List (List LibFilter.LibRow)) (d : List LibFilter.LibRow) :
    LibFilter.configLibLoop g f v smp (c :: rest) d
      = LibFilter.libFilterStep g f v (smp ++ LibFilter.chunksJoin (c :: rest)) := by
  induction rest generalizing smp c d with
  | nil => simp [LibFilter.configLibLoop, LibFilter.chunksJoin]
  | cons c2 rest2 ih =>
      rw [show LibFilter.configLibLoop g f v smp (c :: c2 :: rest2) d
            = LibFilter.configLibLoop g f v (smp ++ c) (c2 :: rest2)
                (LibFilter.libFilterStep g f v (smp ++ c)) from rfl]
      rw [ih]
      simp [LibFilter.chunksJoin, List.append_assoc]

theorem mem_libFilterStep (g f v : Bool) (df : List LibFilter.LibRow)
    (r : LibFilter.LibRow) :
    r ∈ LibFilter.libFilterStep g f v df ↔
      r ∈ df ∧ (g = true ∨ r.feature_types ≠ "Gene Expression")
        ∧ (f = true ∨ r.feature_types ≠ "Antibody Capture")
        ∧ (v = true ∨ r.feature_types ≠ "VDJ-B") := by
  unfold LibFilter.libFilterStep LibFilter.vdjMask LibFilter.featureMask
    LibFilter.gexMask
  cases g <;> cases f <;> cases v <;>
    simp [List.mem_filter] <;> tauto

/-! ### Helper lemma for the cluster_umap table -/

theorem umap_rows_map_barcode (x : List (Rat × Rat)) (o : List String)
    (h : x.length = o.length) :
    ((x.zip o).map (fun p => (p.1.1, p.1.2, p.2))).map (fun r => r.2.2) = o := by
  induction x generalizing o with
  | nil =>
      cases o with
      | nil => rfl
      | cons b os => simp at h
  | cons a xs ih =>
      cases o with
      | nil => simp at h
      | cons b os =>
          simp only [List.zip_cons_cons, List.map_cons]
          simp only [List.length_cons, Nat.add_right_cancel_iff] at h
          rw [ih os h]

/-! ## The claims -/

/-- C1: the claim states that every task records completion by touching
its sentinel output after all its work.  The code contradicts its own
task-graph declarations: the reportall task of
pipeline_geneticdemultiplexing.py declares project.parser.sentinel as
its ruffus output and then returns from a successful run without ever
creating it (its trace contains no touch action at all); the same slip
occurs in vdjAPI of pipeline_cellranger_multi.py and in the useCounts
tasks of both cellranger pipelines. -/
theorem C1_reportall_never_touches_sentinel :
    Gdemux.reportall_output = "project.parser.sentinel"
      ∧ (∀ p : String, ∀ b : Bool,
          (Gdemux.reportall_trace p b).all (fun a => !isTouch a) = true)
      ∧ (∀ b1 b2 b3 b4 : Bool,
          (CrMulti.vdjAPI_trace b1 b2 b3 b4).all (fun a => !isTouch a) = true)
      ∧ (∀ b : Bool, (Cr.useCounts_trace b).all (fun a => !isTouch a) = true)
      ∧ (∀ b : Bool, (CrMulti.useCounts_trace b).all (fun a => !isTouch a) = true) := by
  refine ⟨rfl, ?_, ?_, ?_, ?_⟩
  · intro p b; cases b <;> rfl
  · intro b1 b2 b3 b4; cases b1 <;> cases b2 <;> cases b3 <;> cases b4 <;> decide
  · intro b; cases b <;> decide
  · intro b; cases b <;> decide

/-- C2 counterexample: the claim says no error handling or recovery
behaviour exists beyond raising on missing inputs, and that a missing
required input always raises.  But the final task of pipeline_celldb.py
executes its view statement with up to 5 retries (recovery behaviour),
and a run of the cellranger_multi mtxAPI task whose count matrix
directories are absent raises nothing at all (the registration is
silently skipped). -/
theorem C2_counterexample_recovery_and_silent_skip :
    noRetry Celldb.final_trace = false
      ∧ Action.dbExecWait Celldb.finalViewStmt 5 ∈ Celldb.final_trace
      ∧ hasRaiseB (CrMulti.mtxAPI_trace ("library_1") false [(("sample_1"), false)]) = false := by
  refine ⟨by decide, ?_, by decide⟩
  unfold Celldb.final_trace
  exact List.mem_cons_self _ _

/-- C2 as amended: in every pipeline task every raise is a ValueError
and no raise is ever preceded by an external tool submission; no task
re-attempts a failed action, except that the final task of
pipeline_celldb executes exactly one statement (the CREATE VIEW) through
database.executewait with retries=5. -/
theorem C2_raises_before_tools_and_lone_retry :
    AllFamiliesOk raisesOk ∧ raisesOk Celldb.final_trace = true
      ∧ AllFamiliesOk noRetry
      ∧ Celldb.final_trace.filter isRetried
          = [Action.dbExecWait Celldb.finalViewStmt 5] :=
  ⟨allFamiliesOk_mono (fun _ h => taskOk_to_raisesOk h) all_families_taskOk,
   cd_final_base.1,
   allFamiliesOk_mono (fun _ h => taskOk_to_noRetry h) all_families_taskOk,
   rfl⟩

/-- C3: the task-dependency graph declared by the ruffus decorators of
every pipeline file in the repository is acyclic: no task is reachable
from itself through the declared edges. -/
theorem C3_task_graphs_acyclic :
    AcyclicEdges CrMulti.edges ∧ AcyclicEdges Cr.edges ∧ AcyclicEdges Adt.edges
      ∧ AcyclicEdges Gdemux.edges ∧ AcyclicEdges Intg.edges
      ∧ AcyclicEdges AmbOld.edges ∧ AcyclicEdges AmbNew.edges
      ∧ AcyclicEdges Celldb.edges :=
  ⟨acyclic_of_rank _ CrMulti.rank (by decide),
   acyclic_of_rank _ Cr.rank (by decide),
   acyclic_of_rank _ Adt.rank (by decide),
   acyclic_of_rank _ Gdemux.rank (by decide),
   acyclic_of_rank _ Intg.rank (by decide),
   acyclic_of_rank _ AmbOld.rank (by decide),
   acyclic_of_rank _ AmbNew.rank (by decide),
   acyclic_of_rank _ Celldb.rank (by decide)⟩

/-- C4 counterexample: the claim says a failed action is attempted
exactly once everywhere.  The final task of pipeline_celldb.py submits
its CREATE VIEW statement through database.executewait with retries=5,
so a failed execution of that statement is re-attempted. -/
theorem C4_counterexample_executewait_retries :
    Action.dbExecWait Celldb.finalViewStmt 5 ∈ Celldb.final_trace
      ∧ retriesOf (Action.dbExecWait Celldb.finalViewStmt 5) = 5
      ∧ noRetry Celldb.final_trace = false := by
  refine ⟨?_, rfl, by decide⟩
  unfold Celldb.final_trace
  exact List.mem_cons_self _ _

/-- C4 as amended: no operation implements backpressure and no failed
action is ever re-attempted, with the single exception of the CREATE
VIEW statement of pipeline_celldb final, which is executed with up to 5
retries. -/
theorem C4_no_retry_except_celldb_final :
    AllFamiliesOk noRetry
      ∧ Celldb.final_trace.filter isRetried
          = [Action.dbExecWait Celldb.finalViewStmt 5] :=
  ⟨allFamiliesOk_mono (fun _ h => taskOk_to_noRetry h) all_families_taskOk, rfl⟩

/-- C5 counterexample: the claim limits produced files to sentinels and
market-matrix/TSV outputs, but the plot task of pipeline_adt_norm writes
an svg flowchart (its png flowchart, the latex and csv and yml inputs of
other tasks, and the moved pdf reports equally fall outside the claimed
kinds). -/
theorem C5_counterexample_svg_flowchart :
    Action.write ("adt_norm.dir/pipeline_flowchart.svg") FileKind.svg ∈ Adt.plot_trace
      ∧ claimOutputsOk Adt.plot_trace = false := by
  decide

/-- C5 as amended: every file written or moved by the pipeline python
layer itself is a sentinel, tsv or tsv.gz table, csv or csv.gz file,
tex, sty or yml input, or a pdf, svg or png report; the python layer
writes no market-matrix file directly (those are produced by the
external tools). -/
theorem C5_output_kinds :
    AllFamiliesOk outputsOk ∧ outputsOk Celldb.final_trace = true
      ∧ (∀ o m : String, outputsOk (ClusterUmap.cluster_umap_trace o m) = true) :=
  ⟨allFamiliesOk_mono (fun _ h => taskOk_to_outputsOk h) all_families_taskOk,
   cd_final_base.2.1,
   fun _ _ => rfl⟩

/-- C6 counterexample: the claim says no code in the repository holds
domain data in memory or performs scientific computation in-process.
But cluster_umap.py computes the UMAP dimensionality reduction
in-process through the scanpy library call, and the table it builds in
memory depends on the barcode contents of the loaded AnnData (two
inputs identical except for their barcode values yield different
in-memory tables), which is handling of domain data beyond path
bookkeeping. -/
theorem C6_counterexample_in_process_umap :
    noSciCall (ClusterUmap.cluster_umap_trace ("out.dir") ("0.5")) = false
      ∧ ClusterUmap.cluster_umap_table ⟨["AAACCC"], [(0, 0)]⟩
          ≠ ClusterUmap.cluster_umap_table ⟨["TTTGGG"], [(0, 0)]⟩ := by
  decide

/-- C6 as amended: no pipeline task performs scientific computation
in-process (their in-process library calls are data plumbing only); the
sole in-process scientific computation in the repository is the scanpy
UMAP call of the standalone cluster_umap.py script, which also holds the
loaded AnnData and its coordinate table in memory. -/
theorem C6_sci_computation_delegated :
    AllFamiliesOk noSciCall ∧ noSciCall Celldb.final_trace = true
      ∧ (∀ o m : String,
          Action.libCall ("scanpy") ("tl_umap") ∈ ClusterUmap.cluster_umap_trace o m) :=
  ⟨allFamiliesOk_mono (fun _ h => taskOk_to_noSciCall h) all_families_taskOk,
   cd_final_base.2.2.2,
   fun o m => by simp [ClusterUmap.cluster_umap_trace]⟩

/-- C7 counterexample: the claim says every task's only runtime
behaviour is to format a shell command string, submit it and block.
The useCounts task of pipeline_cellranger submits no command at all: its
entire successful run consists of creating a symlink. -/
theorem C7_counterexample_no_command_task :
    Cr.useCounts_trace false = [Action.symlinkA ("cellranger/counts") ("api/counts")]
      ∧ hasRunB (Cr.useCounts_trace false) = false := by
  decide

/-- C7 as amended: no pipeline task creates a thread or process of its
own; every task action is either a shell command submission to the
external cluster/job-queue system (blocking on completion) or local
bookkeeping (directory creation, file and sentinel writes, symlinks,
dataset registration, file moves, database statements, raises and
in-process helper calls). -/
theorem C7_submit_and_bookkeeping_only :
    AllFamiliesOk plumbingOnly ∧ plumbingOnly Celldb.final_trace = true :=
  ⟨allFamiliesOk_mono (fun _ h => taskOk_to_plumbingOnly h) all_families_taskOk,
   cd_final_base.2.2.1⟩

/-- C8: for an AnnData whose UMAP matrix is aligned with its
observation index (an AnnData invariant), cluster_umap.py builds a table
with exactly the columns UMAP_1, UMAP_2 and barcode_id, one row per
cell, whose barcode_id column equals the observation index in order,
and writes it to outdir joined with umap.<mindist>.tsv.gz where
<mindist> is the raw command-line string. -/
theorem C8_cluster_umap_table (adata : ClusterUmap.AnnData) (outdir mindist : String)
    (h : adata.x_umap.length = adata.obs_index.length) :
    (ClusterUmap.cluster_umap_table adata).header = ["UMAP_1", "UMAP_2", "barcode_id"]
      ∧ (ClusterUmap.cluster_umap_table adata).rows.length = adata.obs_index.length
      ∧ (ClusterUmap.cluster_umap_table adata).rows.map (fun r => r.2.2) = adata.obs_index
      ∧ Action.write (outdir ++ "/umap." ++ mindist ++ ".tsv.gz") FileKind.tsvgz
          ∈ ClusterUmap.cluster_umap_trace outdir mindist := by
  refine ⟨rfl, ?_, umap_rows_map_barcode _ _ h, ?_⟩
  · simp [ClusterUmap.cluster_umap_table, List.length_zip, h]
  · simp [ClusterUmap.cluster_umap_trace, ClusterUmap.cluster_umap_outfile]

/-- Witness for C8 at a concrete two-cell AnnData. -/
theorem C8_cluster_umap_table_witness :
    (ClusterUmap.cluster_umap_table
        ⟨["AAACCC", "TTTGGG"], [(1, 2), (3, 4)]⟩).rows.map (fun r => r.2.2)
      = ["AAACCC", "TTTGGG"] :=
  (C8_cluster_umap_table ⟨["AAACCC", "TTTGGG"], [(1, 2), (3, 4)]⟩ ("out.dir") ("0.25")
    (by decide)).2.2.1

/-- C9: in both cellranger pipelines, useCounts raises ValueError
exactly when api/counts exists, leaves the filesystem unchanged in that
case, and otherwise creates the api/counts symlink (to the respective
pipeline counts folder); an existing registration is never
overwritten. -/
theorem C9_useCounts_registration (s : Option UseCounts.FsEntry) :
    ((UseCounts.useCountsRun ("cellranger/counts") s).1.isSome = UseCounts.osPathExists s
        ∧ (UseCounts.useCountsRun ("cellranger.multi/counts") s).1.isSome
            = UseCounts.osPathExists s)
      ∧ (UseCounts.osPathExists s = true →
          (UseCounts.useCountsRun ("cellranger/counts") s).2 = s
            ∧ (UseCounts.useCountsRun ("cellranger.multi/counts") s).2 = s)
      ∧ (UseCounts.osPathExists s = false →
          (UseCounts.useCountsRun ("cellranger/counts") s).2
              = some (UseCounts.FsEntry.link ("cellranger/counts"))
            ∧ (UseCounts.useCountsRun ("cellranger.multi/counts") s).2
              = some (UseCounts.FsEntry.link ("cellranger.multi/counts"))) := by
  cases s <;> simp [UseCounts.useCountsRun, UseCounts.osPathExists]

/-- Witness for C9: with an existing registration the state is kept;
with none the symlink is created. -/
theorem C9_useCounts_registration_witness :
    UseCounts.osPathExists (some UseCounts.FsEntry.dir) = true
      ∧ (UseCounts.useCountsRun ("cellranger/counts") (some UseCounts.FsEntry.dir)).2
          = some UseCounts.FsEntry.dir
      ∧ UseCounts.osPathExists none = false
      ∧ (UseCounts.useCountsRun ("cellranger/counts") none).2
          = some (UseCounts.FsEntry.link ("cellranger/counts")) :=
  ⟨by decide,
   ((C9_useCounts_registration (some UseCounts.FsEntry.dir)).2.1 (by decide)).1,
   by decide,
   ((C9_useCounts_registration none).2.2 (by decide)).1⟩

/-- C10: the [libraries] table the config task writes keeps exactly the
rows that survive the three masks: Gene Expression rows are dropped
when run_gene-expression is false, Antibody Capture rows when
run_feature is false, and VDJ-B rows when run_vdj is false; VDJ-T rows
are always retained. -/
theorem C10_config_library_filtering (g f v : Bool) (c : List LibFilter.LibRow)
    (rest : List (List LibFilter.LibRow)) (r : LibFilter.LibRow) :
    (r ∈ LibFilter.configLibTable g f v (c :: rest) ↔
        r ∈ LibFilter.chunksJoin (c :: rest)
          ∧ (g = true ∨ r.feature_types ≠ "Gene Expression")
          ∧ (f = true ∨ r.feature_types ≠ "Antibody Capture")
          ∧ (v = true ∨ r.feature_types ≠ "VDJ-B"))
      ∧ (r.feature_types = "VDJ-T" →
          (r ∈ LibFilter.configLibTable g f v (c :: rest)
            ↔ r ∈ LibFilter.chunksJoin (c :: rest))) := by
  have key : r ∈ LibFilter.configLibTable g f v (c :: rest) ↔
      r ∈ LibFilter.chunksJoin (c :: rest)
        ∧ (g = true ∨ r.feature_types ≠ "Gene Expression")
        ∧ (f = true ∨ r.feature_types ≠ "Antibody Capture")
        ∧ (v = true ∨ r.feature_types ≠ "VDJ-B") := by
    unfold LibFilter.configLibTable
    rw [configLibLoop_eq, List.nil_append]
    exact mem_libFilterStep g f v _ r
  refine ⟨key, fun hv => ?_⟩
  rw [key]
  have h1 : ("VDJ-T" : String) ≠ "Gene Expression" := by decide
  have h2 : ("VDJ-T" : String) ≠ "Antibody Capture" := by decide
  have h3 : ("VDJ-T" : String) ≠ "VDJ-B" := by decide
  simp [hv, h1, h2, h3]

/-- Witness for C10: with every run flag false, a VDJ-T row of the
joined chunks is retained in the written table. -/
theorem C10_config_library_filtering_witness :
    (⟨"VDJ-T", []⟩ : LibFilter.LibRow) ∈
        LibFilter.configLibTable false false false
          [[⟨"VDJ-T", []⟩, ⟨"Gene Expression", []⟩]]
      ↔ (⟨"VDJ-T", []⟩ : LibFilter.LibRow) ∈
          LibFilter.chunksJoin [[⟨"VDJ-T", []⟩, ⟨"Gene Expression", []⟩]] :=
  (C10_config_library_filtering false false false _ [] _).2 rfl

end Cellhub
